import Mathlib

/-
Verification of the dependency-resolution and graph-assembly engine of the
quality-assessment-protocol repository (src/qap/qap_workflows.py), against its
natural-language specification.

The embedding models the Python workflow-builder functions shallowly:

* A resource-pool or config value is a `PyVal` (a tagged value mirroring the
  Python values that actually occur at these sites: strings, booleans, small
  integers, and tuples whose components are rendered by name).  A well-formed
  Reference is `PyVal.tup [node, port]`; node objects are identified by their
  unique Nipype node names.
* A pool or a config is an insertion-ordered association list with Python
  `dict` semantics: `set` rebinds in place or appends, `==` between dicts
  ignores order (`Pool.dictEq`).
* The assembled graph is the list of edges created by `workflow.connect`;
  a Nipype node participates in the assembled graph only once an edge touches
  it (creating a `pe.Node` alone does not attach it to the workflow), so the
  state tracks `created` node objects separately from the wired graph.
* Failures (`KeyError` on a missing dict key, `ValueError` on mis-shaped tuple
  unpacking, `TypeError` on `len` of a non-sequence) are `Except PyErr`;
  uncaught exceptions propagate to the caller exactly as in the source.
* Builders mutate `resource_pool` and `config` in place in Python and also
  return them; the embedding threads a single state record `St` through each
  builder, which models both the returned values and the caller-visible
  in-place mutation of the same dict objects.
* A builder invocation appends its own name to a call log `calls`, so that
  "builder X was never invoked" is directly observable.

Builder functions imported from modules that are not part of src/
(anatomical_preproc, functional_preproc, qap_utils) are modelled from the
spec; each such definition carries a doc comment starting
"Modelled from the spec:".
-/

/-- A Python value as it occurs in the resource pool, the config, or a node
input parameter: a string (file path or option), a boolean, a small integer,
or a tuple whose components are rendered by name (a well-formed Reference is
`tup [node_name, port_name]`). -/
inductive PyVal where
  | str : String → PyVal
  | bool : Bool → PyVal
  | nat : Nat → PyVal
  | tup : List String → PyVal
deriving DecidableEq, Repr

/-- A Python exception as raised by the modelled code paths. -/
inductive PyErr where
  | keyError : String → PyErr
  | valueError : String → PyErr
  | typeError : String → PyErr
  | configError : String → PyErr
deriving DecidableEq, Repr

/-- Python truthiness, used by `if config.get('write_report', False)` and
`if config['write_report']`. -/
def PyVal.pyTruthy : PyVal → Bool
  | .str s => !s.isEmpty
  | .bool b => b
  | .nat n => n != 0
  | .tup xs => !xs.isEmpty

/-- `isinstance(v, tuple)`. -/
def PyVal.isTup : PyVal → Bool
  | .tup _ => true
  | _ => false

/-- Python `len(v)`: defined for tuples and strings, `TypeError` otherwise. -/
def PyVal.pyLen : PyVal → Except PyErr Nat
  | .tup xs => .ok xs.length
  | .str s => .ok s.length
  | _ => .error (.typeError "object has no len")

/-- Python 2-target unpacking `a, b = v`: succeeds on a 2-tuple and on any
2-character string (strings are iterable, each character becomes one target),
raises `ValueError` on other tuple/string lengths and `TypeError` on
non-iterables. -/
def PyVal.unpack2 : PyVal → Except PyErr (String × String)
  | .tup [a, b] => .ok (a, b)
  | .tup _ => .error (.valueError "unpack")
  | .str s =>
    match s.toList with
    | [c1, c2] => .ok (String.mk [c1], String.mk [c2])
    | _ => .error (.valueError "unpack")
  | _ => .error (.typeError "cannot unpack non-sequence")

/-- Render a value as Python string interpolation would (used only to build
output path strings and metadata lists). -/
def PyVal.render : PyVal → String
  | .str s => s
  | .bool b => if b then "True" else "False"
  | .nat n => toString n
  | .tup xs => String.intercalate "," xs

/-- An insertion-ordered string-keyed dictionary (Python `dict`), used for the
resource pool and the config. -/
abbrev Pool := List (String × PyVal)

/-- First (and only, keys being unique) binding of a key. -/
def Pool.lookup : Pool → String → Option PyVal
  | [], _ => none
  | (k', v) :: rest, k => if k' = k then some v else Pool.lookup rest k

/-- Python `key in d.keys()`. -/
def Pool.hasKey (p : Pool) (k : String) : Bool :=
  (p.lookup k).isSome

/-- Python `d[k] = v`: rebinds an existing key in place (keeping insertion
order) or appends a new one. -/
def Pool.set : Pool → String → PyVal → Pool
  | [], k, v => [(k, v)]
  | (k', v') :: rest, k, v =>
    if k' = k then (k, v) :: rest else (k', v') :: Pool.set rest k v

/-- The keys, in insertion order. -/
def Pool.keys (p : Pool) : List String := p.map Prod.fst

/-- Python `dict ==`: same key set and, key by key, equal values; insertion
order is ignored.  This is exactly the structural comparison the builders use
for stall detection (`resource_pool == old_rp`). -/
def Pool.dictEq (p q : Pool) : Bool :=
  (p.keys.all fun k => decide (p.lookup k = q.lookup k)) &&
  (q.keys.all fun k => decide (p.lookup k = q.lookup k))

/-- One edge of the assembled execution graph, recorded by
`workflow.connect(src, src_port, dst, dst_port)`. -/
structure Edge where
  src : String
  srcPort : String
  dst : String
  dstPort : String
deriving DecidableEq, Repr

/-- The assembled execution graph: the edges created so far.  A node
participates in the graph once an edge touches it. -/
structure Wf where
  edges : List Edge
deriving DecidableEq, Repr

/-- Whether a node of the given name is attached to the assembled graph. -/
def Wf.hasNode (w : Wf) (n : String) : Bool :=
  w.edges.any fun e => e.src == n || e.dst == n

/-- The state threaded through the builder functions: the workflow graph, the
resource pool, the config dict (kept in the state because the source mutates
it in place), the node objects created so far (`pe.Node(...)` calls), the
static input-parameter assignments (`node.inputs.x = v`), and the log of
builder invocations. -/
structure St where
  wf : Wf
  rp : Pool
  cfg : Pool
  created : List String
  params : List (String × String × PyVal)
  calls : List String
deriving DecidableEq, Repr

def St.logCall (st : St) (s : String) : St := { st with calls := st.calls ++ [s] }

def St.newNode (st : St) (n : String) : St := { st with created := st.created ++ [n] }

def St.setParam (st : St) (u i : String) (v : PyVal) : St :=
  { st with params := st.params ++ [(u, i, v)] }

def St.connect (st : St) (s sp d dp : String) : St :=
  { st with wf := ⟨st.wf.edges ++ [⟨s, sp, d, dp⟩]⟩ }

def St.rpSet (st : St) (k : String) (v : PyVal) : St := { st with rp := st.rp.set k v }

def St.cfgSet (st : St) (k : String) (v : PyVal) : St := { st with cfg := st.cfg.set k v }

/-- `resource_pool[k]`: `KeyError` when absent. -/
def St.rpGet (st : St) (k : String) : Except PyErr PyVal :=
  match st.rp.lookup k with
  | some v => .ok v
  | none => .error (.keyError k)

/-- `config[k]`: `KeyError` when absent. -/
def St.cfgGet (st : St) (k : String) : Except PyErr PyVal :=
  match st.cfg.lookup k with
  | some v => .ok v
  | none => .error (.keyError k)

/-- `config.get(k, default)`. -/
def St.cfgGetD (st : St) (k : String) (d : PyVal) : PyVal :=
  (st.cfg.lookup k).getD d

/-- The latest static parameter assigned to input `i` of node `u` (a later
`node.inputs.i = v` overwrites an earlier one). -/
def St.paramLookup (st : St) (u i : String) : Option PyVal :=
  (st.params.reverse.find? fun e => e.1 == u && e.2.1 == i).map (·.2.2)

/-- The type of a workflow-builder function:
`builder(workflow, resource_pool, config, name) -> (workflow, resource_pool)`,
with the in-place mutation of the pool and config dicts modelled by the
returned state. -/
abbrev BF := String → St → Except PyErr St

/-- The recurring wiring pattern of the source that dispatches on
`isinstance(value, tuple)`: a tuple is unpacked (`ValueError` unless it has
exactly two components) and wired as an edge from that (node, port); any
non-tuple is bound as a static input parameter. -/
def wireIsinstance (st : St) (k u i : String) : Except PyErr St :=
  match st.rp.lookup k with
  | none => .error (.keyError k)
  | some v =>
    if v.isTup then
      match v with
      | .tup [n, p] => .ok (st.connect n p u i)
      | _ => .error (.valueError "unpack")
    else
      .ok (st.setParam u i v)

/-- The other recurring wiring pattern of the source, dispatching on
`len(value) == 2`: any value of Python length 2 (a 2-tuple, but also a
2-character string) is unpacked and wired as an edge; any other value —
including a tuple of the wrong arity — is bound as a static parameter. -/
def wireLen2 (st : St) (k u i : String) : Except PyErr St :=
  match st.rp.lookup k with
  | none => .error (.keyError k)
  | some v =>
    match v.pyLen with
    | .error e => .error e
    | .ok n =>
      if n = 2 then
        match v.unpack2 with
        | .error e => .error e
        | .ok (a, b) => .ok (st.connect a b u i)
      else
        .ok (st.setParam u i v)

/-- The prerequisite-dispatch pattern of the source (spec §4.3):
when `missing` holds, snapshot the pool, invoke the prerequisite builder, and
if the pool it returns is structurally equal to the snapshot, return it
immediately (stall); otherwise, and when nothing was missing, continue. -/
def stallCheckWhen (missing : Bool) (b : BF) (nm : String) (st : St)
    (cont : St → Except PyErr St) : Except PyErr St :=
  if missing then
    match b nm st with
    | .error e => .error e
    | .ok st' => if st'.rp.dictEq st.rp then .ok st' else cont st'
  else
    cont st

/-- Modelled from the spec: `check_config_settings` from `qap_utils` (a module
of this repository that is not under src/).  Per §4.1's contract-violation
discipline, a component that unconditionally requires a setting fails fatally
when it is absent; this helper checks that the named config setting is present
and raises otherwise. -/
def check_config_settings (st : St) (k : String) : Except PyErr Unit :=
  if st.cfg.hasKey k then .ok () else .error (.configError k)

/-- Modelled from the spec: `check_input_resources` from `qap_utils` (not
under src/).  §4.1: `get(name)` "fails with MissingResourceError if absent —
callers are expected to call `has` first"; this helper checks that the named
resource is present in the pool and raises otherwise. -/
def check_input_resources (st : St) (k : String) : Except PyErr Unit :=
  if st.rp.hasKey k then .ok () else .error (.keyError k)

/-- Modelled from the spec: the §4.4 wiring rule used by the builders that are
not under src/ — a `Reference(node, port)` value is wired as an edge from
exactly that node and port, a `Concrete` value is bound as a static parameter,
and a mis-shaped Reference fails fast with a structural error (§7). -/
def wireSpec (st : St) (k u i : String) : Except PyErr St :=
  match st.rp.lookup k with
  | none => .error (.keyError k)
  | some (.tup [n, p]) => .ok (st.connect n p u i)
  | some (.tup _) => .error (.valueError "malformed reference")
  | some v => .ok (st.setParam u i v)

/-- Modelled from the spec: `anatomical_reorient_workflow` from
`anatomical_preproc` (not under src/).  The builder for `anat_reorient`; its
sole required raw input is the caller-supplied `anatomical_scan`, and per
§4.3/§7 it stalls — returns its caller's pool unchanged, raising no error —
when that raw input was never supplied.  Otherwise it wires one reorientation
unit and publishes `anat_reorient` as a Reference to its output port. -/
def anatomical_reorient_workflow : BF := fun nm st =>
  let st := st.logCall "anatomical_reorient_workflow"
  if st.rp.hasKey "anatomical_scan" then
    let node := "anat_reorient" ++ nm
    let st := st.newNode node
    match wireSpec st "anatomical_scan" node "in_file" with
    | .error e => .error e
    | .ok st => .ok (st.rpSet "anat_reorient" (.tup [node, "out_file"]))
  else
    .ok st

/-- Modelled from the spec: `afni_anatomical_linear_registration` from
`anatomical_preproc` (not under src/).  The builder for `anat_linear_xfm`; it
registers the caller-supplied raw `anatomical_scan` to the template, so —
matching §8's scenario, in which `anat_linear_xfm` is unobtainable from
`anat_reorient` alone — it stalls (returns the pool unchanged, no error) when
`anatomical_scan` is absent.  Otherwise it wires one registration unit and
publishes `anat_linear_xfm` as a Reference to its transform output port. -/
def afni_anatomical_linear_registration : BF := fun nm st =>
  let st := st.logCall "afni_anatomical_linear_registration"
  if st.rp.hasKey "anatomical_scan" then
    let node := "anat_allineate" ++ nm
    let st := st.newNode node
    match wireSpec st "anatomical_scan" node "in_file" with
    | .error e => .error e
    | .ok st => .ok (st.rpSet "anat_linear_xfm" (.tup [node, "out_matrix"]))
  else
    .ok st

/-- Modelled from the spec: `afni_segmentation_workflow` from
`anatomical_preproc` (not under src/).  The builder for the three tissue
masks; it segments `anat_reorient`, stalling (pool unchanged, no error) when
that prerequisite is absent, and otherwise wires one segmentation unit and
publishes `anat_gm_mask`, `anat_wm_mask` and `anat_csf_mask` as References. -/
def afni_segmentation_workflow : BF := fun nm st =>
  let st := st.logCall "afni_segmentation_workflow"
  if st.rp.hasKey "anat_reorient" then
    let node := "anat_segment" ++ nm
    let st := st.newNode node
    match wireSpec st "anat_reorient" node "in_file" with
    | .error e => .error e
    | .ok st =>
      let st := st.rpSet "anat_gm_mask" (.tup [node, "gm_mask"])
      let st := st.rpSet "anat_wm_mask" (.tup [node, "wm_mask"])
      .ok (st.rpSet "anat_csf_mask" (.tup [node, "csf_mask"]))
  else
    .ok st

/-- Modelled from the spec: `invert_functional_brain_mask_workflow` from
`functional_preproc` (not under src/).  The builder for
`func_inverted_brain_mask`; it inverts `func_brain_mask`, stalling (pool
unchanged, no error) when that prerequisite is absent, and otherwise wires one
unit and publishes `func_inverted_brain_mask` as a Reference. -/
def invert_functional_brain_mask_workflow : BF := fun nm st =>
  let st := st.logCall "invert_functional_brain_mask_workflow"
  if st.rp.hasKey "func_brain_mask" then
    let node := "invert_func_brain_mask" ++ nm
    let st := st.newNode node
    match wireSpec st "func_brain_mask" node "in_file" with
    | .error e => .error e
    | .ok st => .ok (st.rpSet "func_inverted_brain_mask" (.tup [node, "out_file"]))
  else
    .ok st

/-- Modelled from the spec: `func_motion_correct_workflow` from
`functional_preproc` (not under src/).  The builder for `func_motion_correct`
and `func_coordinate_transformation`; it motion-corrects `func_reorient`,
stalling (pool unchanged, no error) when that prerequisite is absent, and
otherwise wires one unit and publishes both outputs as References. -/
def func_motion_correct_workflow : BF := fun nm st =>
  let st := st.logCall "func_motion_correct_workflow"
  if st.rp.hasKey "func_reorient" then
    let node := "func_motion_correct" ++ nm
    let st := st.newNode node
    match wireSpec st "func_reorient" node "in_file" with
    | .error e => .error e
    | .ok st =>
      let st := st.rpSet "func_motion_correct" (.tup [node, "out_file"])
      .ok (st.rpSet "func_coordinate_transformation" (.tup [node, "oned_matrix_save"]))
  else
    .ok st

/-- Modelled from the spec: `mean_functional_workflow` from
`functional_preproc` (not under src/).  The builder for `func_mean`; it
averages `func_reorient`, stalling (pool unchanged, no error) when that
prerequisite is absent, and otherwise wires one unit and publishes
`func_mean` as a Reference. -/
def mean_functional_workflow : BF := fun nm st =>
  let st := st.logCall "mean_functional_workflow"
  if st.rp.hasKey "func_reorient" then
    let node := "func_mean" ++ nm
    let st := st.newNode node
    match wireSpec st "func_reorient" node "in_file" with
    | .error e => .error e
    | .ok st => .ok (st.rpSet "func_mean" (.tup [node, "out_file"]))
  else
    .ok st

/-- The wiring section of `qap_mask_workflow` (src/qap/qap_workflows.py lines
86-191), entered once both prerequisite checks have passed: eight computation
units are created and connected, `anat_reorient` and `anat_linear_xfm` are
bound per the `isinstance(..., tuple)` pattern, and the three mask outputs are
published into the pool as References.  (The source's try/except fallbacks
between `preprocess` and `afni_utils` interfaces create the same nodes either
way and are folded into one node creation each.) -/
def qap_mask_wire (nm : String) (st : St) : Except PyErr St :=
  let clip := "qap_headmask_clip_level" ++ nm
  let exprS := "qap_headmask_create_expr_string" ++ nm
  let maskSkull := "qap_headmask_mask_skull" ++ nm
  let dilate := "qap_headmask_mask_tool" ++ nm
  let fill := "qap_headmask_scipy_fill" ++ nm
  let sliceM := "qap_headmask_slice_head_mask" ++ nm
  let combine := "qap_headmask_combine_masks" ++ nm
  let subtract := "qap_headmask_subtract_masks" ++ nm
  let st := st.newNode clip
  let st := st.newNode exprS
  let st := st.connect clip "clip_val" exprS "clip_level_value"
  let st := st.newNode maskSkull
  let st := st.setParam maskSkull "outputtype" (.str "NIFTI_GZ")
  let st := st.connect exprS "expr_string" maskSkull "expr"
  let st := st.newNode dilate
  let st := st.setParam dilate "dilate_inputs" (.str "6 -6")
  let st := st.setParam dilate "outputtype" (.str "NIFTI_GZ")
  let st := st.connect maskSkull "out_file" dilate "in_file"
  let st := st.newNode fill
  let st := st.connect dilate "out_file" fill "in_file"
  let st := st.newNode sliceM
  let st := st.newNode combine
  let st := st.setParam combine "expr" (.str "(a+b)-(a*b)")
  let st := st.setParam combine "outputtype" (.str "NIFTI_GZ")
  let st := st.newNode subtract
  let st := st.setParam subtract "expr" (.str "a-b")
  let st := st.setParam subtract "outputtype" (.str "NIFTI_GZ")
  -- one isinstance(..., tuple) test drives all three anat_reorient bindings
  Except.bind (st.rpGet "anat_reorient") fun v =>
  Except.bind
    (if v.isTup then
      Except.bind v.unpack2 fun np =>
        .ok (((st.connect np.1 np.2 clip "in_file").connect np.1 np.2 maskSkull
          "in_file_a").connect np.1 np.2 sliceM "infile")
    else
      .ok (((st.setParam clip "in_file" v).setParam maskSkull "in_file_a" v).setParam
        sliceM "infile" v)) fun st =>
  Except.bind (st.rpGet "anat_linear_xfm") fun v =>
  Except.bind
    (if v.isTup then
      Except.bind v.unpack2 fun np => .ok (st.connect np.1 np.2 sliceM "transform")
    else
      .ok (st.setParam sliceM "transform" v)) fun st =>
  let st := st.connect fill "out_file" combine "in_file_a"
  let st := st.connect sliceM "outfile_path" combine "in_file_b"
  let st := st.connect combine "out_file" subtract "in_file_a"
  let st := st.connect sliceM "outfile_path" subtract "in_file_b"
  let st := st.rpSet "anat_qap_head_mask" (.tup [combine, "out_file"])
  let st := st.rpSet "anat_whole_head_mask" (.tup [fill, "out_file"])
  .ok (st.rpSet "anat_skull_only_mask" (.tup [subtract, "out_file"]))

/-- `qap_mask_workflow` (src lines 6-191): resolves the missing
`anat_linear_xfm` and `anat_reorient` prerequisites with the snapshot/stall
pattern, then wires the head-mask units.  The prerequisite builders, imported
from `anatomical_preproc`, are passed as parameters `reg` and `reor`. -/
def qap_mask_workflow (reg reor : BF) : BF := fun nm st =>
  let st := st.logCall "qap_mask_workflow"
  stallCheckWhen (!st.rp.hasKey "anat_linear_xfm") reg nm st fun st =>
  stallCheckWhen (!st.rp.hasKey "anat_reorient") reor nm st fun st =>
  qap_mask_wire nm st

/-- The wiring section of `calculate_artifacts_background` (src lines
456-487). -/
def calculate_artifacts_background_wire (nm : String) (st : St) : Except PyErr St :=
  let calcA := "calculate_artifacts" ++ nm
  let st := st.newNode calcA
  Except.bind (st.cfgGet "exclude_zeros") fun v =>
  let st := st.setParam calcA "exclude_zeroes" v
  Except.bind (wireIsinstance st "anat_reorient" calcA "anatomical_reorient") fun st =>
  Except.bind (wireIsinstance st "anat_qap_head_mask" calcA "qap_head_mask_path") fun st =>
  let st := st.rpSet "anat_fav_artifacts_background" (.tup [calcA, "fav_bg_file"])
  .ok (st.rpSet "anat_qap_bg_head_mask" (.tup [calcA, "bg_mask_file"]))

/-- `calculate_artifacts_background` (src lines 432-487).  Its first
prerequisite builder is the src `qap_mask_workflow`, its second the
`anatomical_reorient_workflow` import; both are parameters.  In the second
dispatch block the source binds the prerequisite's pool to
`new_resource_pool` while comparing and returning `resource_pool`; since the
prerequisite mutates the caller's pool dict in place and returns that same
object, both names denote the prerequisite's returned pool, which is what the
state threads. -/
def calculate_artifacts_background (maskB reor : BF) : BF := fun nm st =>
  let st := st.logCall "calculate_artifacts_background"
  stallCheckWhen (!st.rp.hasKey "anat_qap_head_mask") maskB nm st fun st =>
  stallCheckWhen (!st.rp.hasKey "anat_reorient") reor nm st fun st =>
  calculate_artifacts_background_wire nm st

/-- `calculate_temporal_std` (src lines 490-519): no prerequisite dispatch;
one unit, two isinstance-pattern bindings, one published output. -/
def calculate_temporal_std : BF := fun nm st =>
  let st := st.logCall "calculate_temporal_std"
  let tstd := "calculate_temporal_std" ++ nm
  let st := st.newNode tstd
  Except.bind (wireIsinstance st "func_reorient" tstd "func_reorient") fun st =>
  Except.bind (wireIsinstance st "func_brain_mask" tstd "func_mask") fun st =>
  .ok (st.rpSet "func_temporal_std_map" (.tup [tstd, "temporal_std_map_file"]))

/-- The wiring section of `calculate_sfs_workflow` (src lines 537-572).
Note that the published `func_estimated_nuisance_csf` entry references an
output port (`est_nuisance_file_csf`) that the unit does not declare; the
pool records the pair exactly as written. -/
def calculate_sfs_wire (nm : String) (st : St) : Except PyErr St :=
  let sfs := "calculate_sfs" ++ nm
  let st := st.newNode sfs
  Except.bind (wireIsinstance st "func_reorient" sfs "func") fun st =>
  Except.bind (wireIsinstance st "func_brain_mask" sfs "func_mask") fun st =>
  Except.bind (wireIsinstance st "func_temporal_std_map" sfs "temporal_std_file") fun st =>
  let st := st.rpSet "func_SFS" (.tup [sfs, "sfs_file"])
  let st := st.rpSet "func_estimated_nuisance" (.tup [sfs, "est_nuisance_file"])
  .ok (st.rpSet "func_estimated_nuisance_csf" (.tup [sfs, "est_nuisance_file_csf"]))

/-- `calculate_sfs_workflow` (src lines 522-572): one prerequisite dispatch
(`func_temporal_std_map`, produced by the src `calculate_temporal_std`,
passed as parameter `tstd`), then the wiring section. -/
def calculate_sfs_workflow (tstd : BF) : BF := fun nm st =>
  let st := st.logCall "calculate_sfs_workflow"
  stallCheckWhen (!st.rp.hasKey "func_temporal_std_map") tstd nm st fun st =>
  calculate_sfs_wire nm st

/-- Python `sub in s` on strings, used by `"func" in data_type`. -/
def pyInStr (sub s : String) : Bool :=
  (s.splitOn sub).length != 1

/-- `qap_gather_header_info` (src lines 330-429): no prerequisite dispatch;
creates the header-gathering unit, binds the raw scan statically when present
(under the `data_type == "anat"` / `"func" in data_type` tests), writes the
output JSON path, and publishes `<data_type>_header_info` as a Concrete
path. -/
def qap_gather_header_info (data_type : String) : BF := fun nm st =>
  let st := st.logCall "qap_gather_header_info"
  let gather := "gather_header_info_" ++ data_type ++ nm
  let st := st.newNode gather
  Except.bind (st.cfgGet "subject_id") fun v =>
  let st := st.setParam gather "subject" v
  Except.bind (st.cfgGet "session_id") fun v =>
  let st := st.setParam gather "session" v
  Except.bind (st.cfgGet "scan_id") fun v =>
  let st := st.setParam gather "scan" v
  let st :=
    if data_type = "anat" then
      match st.rp.lookup "anatomical_scan" with
      | some v => (st.setParam gather "in_file" v).setParam gather "type" (.str data_type)
      | none => st
    else if pyInStr "func" data_type then
      match st.rp.lookup "functional_scan" with
      | some v => (st.setParam gather "in_file" v).setParam gather "type" (.str data_type)
      | none => st
    else st
  Except.bind (st.cfgGet "output_directory") fun od =>
  Except.bind (st.cfgGet "run_name") fun rn =>
  Except.bind (st.cfgGet "site_name") fun sn =>
  Except.bind (st.cfgGet "subject_id") fun sub =>
  Except.bind (st.cfgGet "session_id") fun ses =>
  Except.bind (st.cfgGet "scan_id") fun scn =>
  let outDir := String.intercalate "/" [od.render, rn.render, sn.render, sub.render, ses.render]
  let outJson := outDir ++ "/" ++ sub.render ++ "_" ++ ses.render ++ "_" ++ scn.render ++
    "_qap-" ++ data_type ++ ".json"
  let toJson := "qap_header_to_json_" ++ data_type ++ nm
  let st := st.newNode toJson
  let st := st.setParam toJson "json_file" (.str outJson)
  let st := st.connect gather "qap_dict" toJson "output_dict"
  .ok (st.rpSet (data_type ++ "_header_info") (.str outJson))

/-- The optional mosaic-report block of `qap_anatomical_spatial_workflow`
(src lines 754-772), entered when `config.get('write_report', False)` is
truthy. -/
def qap_anatomical_spatial_mosaic (nm : String) (st : St) : Except PyErr St :=
  let plot := "plot_mosaic" ++ nm
  let st := st.newNode plot
  Except.bind (st.cfgGet "subject_id") fun v =>
  let st := st.setParam plot "subject" v
  Except.bind (st.cfgGet "session_id") fun ses =>
  Except.bind (st.cfgGet "scan_id") fun scn =>
  let meta := [ses.render, scn.render] ++
    (match st.cfg.lookup "site_name" with
     | some v => [v.render]
     | none => [])
  let st := st.setParam plot "metadata" (.tup meta)
  let st := st.setParam plot "title" (.str "Anatomical reoriented")
  Except.bind (wireLen2 st "anat_reorient" plot "in_file") fun st =>
  let st := st.rpSet "mean_epi_mosaic" (.tup [plot, "out_file"])
  .ok (st.rpSet "qap_mosaic" (.tup [plot, "out_file"]))

/-- The `site_name` fallback of `qap_anatomical_spatial_workflow` (src lines
687-690): prefer a pool-supplied `site_name`, fall back to the config, and
leave the parameter unset when neither has it. -/
def siteNameBind (st : St) (u : String) : St :=
  match st.rp.lookup "site_name" with
  | some v => st.setParam u "site_name" v
  | none =>
    match st.cfg.lookup "site_name" with
    | some v => st.setParam u "site_name" v
    | none => st

/-- The config-only `site_name` guard used by `qap_functional_workflow`
(src lines 935-936 and 985-986). -/
def siteNameCfgBind (st : St) (u : String) : St :=
  match st.cfg.lookup "site_name" with
  | some v => st.setParam u "site_name" v
  | none => st

/-- The FD-input binding of `qap_functional_workflow` (src lines 908-916):
`mcflirt_rel_rms`, when present, is always bound statically, whatever its
shape; otherwise `func_coordinate_transformation` is bound per the len==2
pattern. -/
def fdInFileBind (st : St) (fd : String) : Except PyErr St :=
  match st.rp.lookup "mcflirt_rel_rms" with
  | some v => .ok (st.setParam fd "in_file" v)
  | none => wireLen2 st "func_coordinate_transformation" fd "in_file"

/-- The wiring section of `qap_anatomical_spatial_workflow` (src lines
664-792), entered once the prerequisite dispatches have passed: the spatial
measure unit and its static subject parameters, the unconditional unpacking of
`resource_pool['starter']`, the pool/config fallbacks for `site_name`, the six
isinstance-pattern and two len==2-pattern input bindings, the optional mosaic
block, and the JSON writer; `qap_anatomical_spatial` is published as a
Concrete output path. -/
def qap_anatomical_spatial_wire (nm : String) (st : St) : Except PyErr St :=
  let spatial := "qap_anatomical_spatial" ++ nm
  let st := st.newNode spatial
  Except.bind (st.cfgGet "subject_id") fun v =>
  let st := st.setParam spatial "subject_id" v
  Except.bind (st.cfgGet "session_id") fun v =>
  let st := st.setParam spatial "session_id" v
  Except.bind (st.cfgGet "scan_id") fun v =>
  let st := st.setParam spatial "scan_id" v
  Except.bind (st.cfgGet "run_name") fun v =>
  let st := st.setParam spatial "run_name" v
  Except.bind (st.cfgGet "exclude_zeros") fun v =>
  let st := st.setParam spatial "exclude_zeroes" v
  let st := st.setParam spatial "out_vox" (.bool true)
  Except.bind (st.cfgGet "output_directory") fun v =>
  let st := st.setParam spatial "session_output_dir" v
  -- node, out_file = resource_pool['starter']  (unconditional lookup + unpack)
  Except.bind (st.rpGet "starter") fun v =>
  Except.bind v.unpack2 fun np =>
  let st := st.connect np.1 np.2 spatial "starter"
  let st := siteNameBind st spatial
  Except.bind (wireIsinstance st "anat_reorient" spatial "anatomical_reorient") fun st =>
  Except.bind (wireIsinstance st "anat_qap_head_mask" spatial "qap_head_mask_path") fun st =>
  Except.bind (wireIsinstance st "anat_qap_bg_head_mask" spatial "qap_bg_head_mask_path") fun st =>
  Except.bind (wireIsinstance st "anat_whole_head_mask" spatial "whole_head_mask_path") fun st =>
  Except.bind (wireIsinstance st "anat_skull_only_mask" spatial "skull_mask_path") fun st =>
  Except.bind (wireIsinstance st "anat_gm_mask" spatial "anatomical_gm_mask") fun st =>
  Except.bind (wireLen2 st "anat_wm_mask" spatial "anatomical_wm_mask") fun st =>
  Except.bind (wireLen2 st "anat_csf_mask" spatial "anatomical_csf_mask") fun st =>
  Except.bind (wireIsinstance st "anat_fav_artifacts_background" spatial "fav_artifacts") fun st =>
  Except.bind
    (if (st.cfgGetD "write_report" (.bool false)).pyTruthy then
      qap_anatomical_spatial_mosaic nm st
    else
      .ok st) fun st =>
  Except.bind (st.cfgGet "output_directory") fun od =>
  Except.bind (st.cfgGet "run_name") fun rn =>
  Except.bind (st.cfgGet "site_name") fun sn =>
  Except.bind (st.cfgGet "subject_id") fun sub =>
  Except.bind (st.cfgGet "session_id") fun ses =>
  Except.bind (st.cfgGet "scan_id") fun scn =>
  let outDir := String.intercalate "/" [od.render, rn.render, sn.render, sub.render, ses.render]
  let outJson := outDir ++ "/" ++ sub.render ++ "_" ++ ses.render ++ "_" ++ scn.render ++
    "_qap-anat.json"
  let toJson := "qap_anatomical_spatial_to_json" ++ nm
  let st := st.newNode toJson
  let st := st.setParam toJson "json_file" (.str outJson)
  let st := st.connect spatial "qap" toJson "output_dict"
  .ok (st.rpSet "qap_anatomical_spatial" (.str outJson))

/-- `qap_anatomical_spatial_workflow` (src lines 575-792): validates
`anatomical_template` via `check_config_settings`, inserts the
`exclude_zeros = False` config default when the key is absent, resolves the
`anat_fav_artifacts_background` prerequisite (src `calculate_artifacts_background`,
parameter `artifacts`) and the three tissue masks (`afni_segmentation_workflow`
import, parameter `seg`) with the snapshot/stall pattern, then wires the
spatial-measure units.  The `_report` parameter mirrors the source's unused
`report=False` keyword.  In the segmentation dispatch block the source binds
the prerequisite's pool to `new_resource_pool` while comparing and returning
`resource_pool`; since the prerequisite mutates the caller's pool dict in
place and returns that same object, both names denote the returned pool,
which is what the state threads. -/
def qap_anatomical_spatial_workflow (artifacts seg : BF) (_report : Bool) : BF := fun nm st =>
  let st := st.logCall "qap_anatomical_spatial_workflow"
  match check_config_settings st "anatomical_template" with
  | .error e => .error e
  | .ok _ =>
    let st := if st.cfg.hasKey "exclude_zeros" then st else st.cfgSet "exclude_zeros" (.bool false)
    stallCheckWhen (!st.rp.hasKey "anat_fav_artifacts_background") artifacts nm st fun st =>
    stallCheckWhen (!st.rp.hasKey "anat_gm_mask" || !st.rp.hasKey "anat_wm_mask" ||
      !st.rp.hasKey "anat_csf_mask") seg nm st fun st =>
    qap_anatomical_spatial_wire nm st

/-- The optional mean-EPI mosaic block of `qap_functional_workflow` (src lines
951-968), entered when `config.get('write_report', False)` is truthy. -/
def qap_functional_mosaic (nm : String) (st : St) : Except PyErr St :=
  let plot := "plot_mosaic" ++ nm
  let st := st.newNode plot
  Except.bind (st.cfgGet "subject_id") fun v =>
  let st := st.setParam plot "subject" v
  Except.bind (st.cfgGet "session_id") fun ses =>
  Except.bind (st.cfgGet "scan_id") fun scn =>
  let meta := [ses.render, scn.render] ++
    (match st.cfg.lookup "site_name" with
     | some v => [v.render]
     | none => [])
  let st := st.setParam plot "metadata" (.tup meta)
  let st := st.setParam plot "title" (.str "Mean EPI")
  Except.bind (wireLen2 st "func_mean" plot "in_file") fun st =>
  .ok (st.rpSet "qap_mosaic" (.tup [plot, "out_file"]))

/-- The grayplot report block of `qap_functional_workflow` (src lines
1069-1114), entered when `config['write_report']` is truthy.  The source's
`metadata = [session, scan]` list built at the top of the block is never used
(the node's metadata is set to `[id_string]` below), so only its config reads
are kept; the `('qa', pick_dvars, dict_id)` connection source — a port name
plus an inline selector function — is recorded as an edge from port `qa`. -/
def qap_functional_grayplot (nm : String) (st : St) : Except PyErr St :=
  let fd := "generate_FD_file" ++ nm
  let temporal := "qap_functional_temporal" ++ nm
  let gsts := "global_signal_time_series" ++ nm
  Except.bind (st.cfgGet "session_id") fun _ =>
  Except.bind (st.cfgGet "scan_id") fun _ =>
  Except.bind (st.cfgGet "output_directory") fun od =>
  Except.bind (st.cfgGet "run_name") fun rn =>
  Except.bind (st.cfgGet "site_name") fun sn =>
  Except.bind (st.cfgGet "subject_id") fun sub =>
  Except.bind (st.cfgGet "session_id") fun ses =>
  Except.bind (st.cfgGet "scan_id") fun scn =>
  let outDir := String.intercalate "/" [od.render, rn.render, sn.render, sub.render, ses.render]
  let outTs := outDir ++ "/" ++ sub.render ++ "_" ++ ses.render ++ "_" ++ scn.render ++
    "_timeseries-measures.png"
  let outCluster := outDir ++ "/" ++ sub.render ++ "_" ++ ses.render ++ "_" ++ scn.render ++
    "_grayplot-cluster.nii.gz"
  let grayplot := "grayplot" ++ nm
  let st := st.newNode grayplot
  Except.bind (st.cfgGet "subject_id") fun v =>
  let st := st.setParam grayplot "subject" v
  let st := st.setParam grayplot "out_file" (.str outTs)
  let st := st.setParam grayplot "out_cluster" (.str outCluster)
  let idString := sub.render ++ " " ++ ses.render ++ " " ++ scn.render
  let st := st.setParam grayplot "metadata" (.tup [idString])
  let st := st.connect fd "out_file" grayplot "meanfd_file"
  let st := st.connect temporal "qa" grayplot "dvars"
  let st := st.connect gsts "output" grayplot "global_signal"
  let st := st.rpSet "timeseries_measures" (.tup [grayplot, "out_file"])
  let st := st.rpSet "grayplot-cluster" (.tup [grayplot, "out_cluster"])
  Except.bind (wireLen2 st "func_reorient" grayplot "func_file") fun st =>
  Except.bind (wireLen2 st "func_brain_mask" grayplot "mask_file") fun st =>
  .ok st

/-- The wiring section of `qap_functional_workflow` after the
functional-spatial unit's ghosting direction has been set (src lines
930-1116): the remaining spatial-EPI parameters and bindings, the optional
mosaic block, the temporal measure unit, the global-signal unit, the
timeseries bindings (whose `else` branches call `check_input_resources`), the
JSON writers, the published `qap_functional` Concrete path and the optional
grayplot block behind the unconditional `config['write_report']` lookup. -/
def qap_functional_wire2 (nm : String) (st : St) : Except PyErr St :=
  let fd := "generate_FD_file" ++ nm
  let spatialEpi := "qap_functional_spatial" ++ nm
  Except.bind (st.cfgGet "subject_id") fun v =>
  let st := st.setParam spatialEpi "subject_id" v
  Except.bind (st.cfgGet "session_id") fun v =>
  let st := st.setParam spatialEpi "session_id" v
  Except.bind (st.cfgGet "scan_id") fun v =>
  let st := st.setParam spatialEpi "scan_id" v
  Except.bind (st.cfgGet "run_name") fun v =>
  let st := st.setParam spatialEpi "run_name" v
  let st := siteNameCfgBind st spatialEpi
  Except.bind (wireLen2 st "func_mean" spatialEpi "mean_epi") fun st =>
  Except.bind (wireLen2 st "func_brain_mask" spatialEpi "func_brain_mask") fun st =>
  Except.bind
    (if (st.cfgGetD "write_report" (.bool false)).pyTruthy then
      qap_functional_mosaic nm st
    else
      .ok st) fun st =>
  let temporal := "qap_functional_temporal" ++ nm
  let st := st.newNode temporal
  Except.bind (st.cfgGet "subject_id") fun v =>
  let st := st.setParam temporal "subject_id" v
  Except.bind (st.cfgGet "session_id") fun v =>
  let st := st.setParam temporal "session_id" v
  Except.bind (st.cfgGet "scan_id") fun v =>
  let st := st.setParam temporal "scan_id" v
  Except.bind (st.cfgGet "run_name") fun v =>
  let st := st.setParam temporal "run_name" v
  Except.bind (st.cfgGet "output_directory") fun v =>
  let st := st.setParam temporal "session_output_dir" v
  let st := st.connect fd "out_file" temporal "fd_file"
  let st := siteNameCfgBind st temporal
  let gsts := "global_signal_time_series" ++ nm
  let st := st.newNode gsts
  -- func reorient (timeseries) -> QAP func temp, and the global-signal unit
  Except.bind (st.rpGet "func_reorient") fun v =>
  Except.bind v.pyLen fun n =>
  Except.bind
    (if n = 2 then
      Except.bind v.unpack2 fun np =>
        .ok ((st.connect np.1 np.2 temporal "func_timeseries").connect np.1 np.2 gsts
          "functional_file")
    else
      Except.bind (check_input_resources st "func_reorient") fun _ =>
        .ok ((st.setParam temporal "func_timeseries" v).setParam gsts "functional_file" v))
    fun st =>
  -- func mean (one volume) -> QAP func temp
  Except.bind (st.rpGet "func_mean") fun v =>
  Except.bind v.pyLen fun n =>
  Except.bind
    (if n = 2 then
      Except.bind v.unpack2 fun np => .ok (st.connect np.1 np.2 temporal "func_mean")
    else
      Except.bind (check_input_resources st "func_mean") fun _ =>
        .ok (st.setParam temporal "func_mean" v)) fun st =>
  Except.bind (wireLen2 st "func_brain_mask" temporal "func_brain_mask") fun st =>
  Except.bind (wireLen2 st "func_inverted_brain_mask" temporal "bg_func_brain_mask") fun st =>
  Except.bind (wireIsinstance st "func_SFS" temporal "sfs") fun st =>
  Except.bind (st.cfgGet "output_directory") fun od =>
  Except.bind (st.cfgGet "run_name") fun rn =>
  Except.bind (st.cfgGet "site_name") fun sn =>
  Except.bind (st.cfgGet "subject_id") fun sub =>
  Except.bind (st.cfgGet "session_id") fun ses =>
  Except.bind (st.cfgGet "scan_id") fun scn =>
  let outDir := String.intercalate "/" [od.render, rn.render, sn.render, sub.render, ses.render]
  let outJson := outDir ++ "/" ++ sub.render ++ "_" ++ ses.render ++ "_" ++ scn.render ++
    "_qap-func.json"
  let sToJson := "qap_functional_spatial_to_json" ++ nm
  let st := st.newNode sToJson
  let st := st.setParam sToJson "json_file" (.str outJson)
  let tToJson := "qap_functional_temporal_to_json" ++ nm
  let st := st.newNode tToJson
  let st := st.setParam tToJson "json_file" (.str outJson)
  let st := st.connect spatialEpi "qap" sToJson "output_dict"
  let st := st.connect temporal "qap" tToJson "output_dict"
  let st := st.rpSet "qap_functional" (.str outJson)
  Except.bind (st.cfgGet "write_report") fun wr =>
  if wr.pyTruthy then
    qap_functional_grayplot nm st
  else
    .ok st

/-- The start of `qap_functional_workflow`'s wiring section (src lines
904-929): the framewise-displacement unit, its binding from `mcflirt_rel_rms`
(always static, whatever the value) or from `func_coordinate_transformation`
(len==2 pattern), the functional-spatial unit, the silent
`ghost_direction = 'y'` config default, and the unit's `direction`
parameter. -/
def qap_functional_wire (nm : String) (st : St) : Except PyErr St :=
  let fd := "generate_FD_file" ++ nm
  let st := st.newNode fd
  Except.bind (fdInFileBind st fd) fun st =>
  let spatialEpi := "qap_functional_spatial" ++ nm
  let st := st.newNode spatialEpi
  let st := if st.cfg.hasKey "ghost_direction" then st else st.cfgSet "ghost_direction" (.str "y")
  Except.bind (st.cfgGet "ghost_direction") fun v =>
  let st := st.setParam spatialEpi "direction" v
  qap_functional_wire2 nm st

/-- `qap_functional_workflow` (src lines 795-1116): resolves its four
prerequisite dispatches — `func_inverted_brain_mask` (parameter `invert`),
the motion-correct block guarded by
`func_motion_correct` absent or both `func_coordinate_transformation` and
`mcflirt_rel_rms` absent (parameter `motion`), `func_mean` (parameter
`meanf`), and `func_SFS` (src `calculate_sfs_workflow`, parameter `sfs`) —
with the snapshot/stall pattern, then wires the functional measure units. -/
def qap_functional_workflow (invert motion meanf sfs : BF) : BF := fun nm st =>
  let st := st.logCall "qap_functional_workflow"
  stallCheckWhen (!st.rp.hasKey "func_inverted_brain_mask") invert nm st fun st =>
  stallCheckWhen (!st.rp.hasKey "func_motion_correct" ||
    (!st.rp.hasKey "func_coordinate_transformation" && !st.rp.hasKey "mcflirt_rel_rms"))
    motion nm st fun st =>
  stallCheckWhen (!st.rp.hasKey "func_mean") meanf nm st fun st =>
  stallCheckWhen (!st.rp.hasKey "func_SFS") sfs nm st fun st =>
  qap_functional_wire nm st

/-- The materialization sweep of `run_nipype_workflow` (src lines 211-216):
for every key of the fully assembled pool, a DataSink node object named
`datasink_<key>` is created and given its base directory; only when the key's
value is a tuple is the sink unpacked and wired — and thereby attached to the
graph — from that reference's node and output port. -/
def datasinkSweep (st : St) : List String → Except PyErr St
  | [] => .ok st
  | k :: ks =>
    let ds := "datasink_" ++ k
    let st := st.newNode ds
    let st := st.setParam ds "base_directory" (.str "output")
    match st.rp.lookup k with
    | none => datasinkSweep st ks
    | some v =>
      if v.isTup then
        match v.unpack2 with
        | .error e => .error e
        | .ok (n, p) => datasinkSweep (st.connect n p ds k) ks
      else
        datasinkSweep st ks

/-- `run_nipype_workflow` (src lines 194-225): replaces a falsy (empty)
config with a fresh empty dict, starts a fresh workflow, invokes the builder
with the default name suffix `"_"`, runs the materialization sweep over the
resulting pool, and, when `run` is set, inserts the `num_processors = 1`
config default before handing the graph to the external execution engine
(the engine run and the output glob are outside the assembly layer; the
working/output directories derived from the current directory are abstracted
to a fixed base). -/
def run_nipype_workflow (builder : BF) (rp cfg0 : Pool) (run : Bool) : Except PyErr St :=
  let cfg := if cfg0.isEmpty then [] else cfg0
  let st0 : St := { wf := ⟨[]⟩, rp := rp, cfg := cfg, created := [], params := [], calls := [] }
  Except.bind (builder "_" st0) fun st =>
  Except.bind (datasinkSweep st st.rp.keys) fun st =>
  if run then
    .ok (if st.cfg.hasKey "num_processors" then st else st.cfgSet "num_processors" (.nat 1))
  else
    .ok st

/-- `qap_mask_workflow` with its actual prerequisite builders. -/
def qap_mask_workflowM : BF :=
  qap_mask_workflow afni_anatomical_linear_registration anatomical_reorient_workflow

/-- `calculate_artifacts_background` with its actual prerequisite builders. -/
def calculate_artifacts_backgroundM : BF :=
  calculate_artifacts_background qap_mask_workflowM anatomical_reorient_workflow

/-- `calculate_sfs_workflow` with its actual prerequisite builder. -/
def calculate_sfs_workflowM : BF :=
  calculate_sfs_workflow calculate_temporal_std

/-- `qap_anatomical_spatial_workflow` with its actual prerequisite builders
and the default `report=False`. -/
def qap_anatomical_spatial_workflowM : BF :=
  qap_anatomical_spatial_workflow calculate_artifacts_backgroundM afni_segmentation_workflow false

/-- `qap_functional_workflow` with its actual prerequisite builders. -/
def qap_functional_workflowM : BF :=
  qap_functional_workflow invert_functional_brain_mask_workflow func_motion_correct_workflow
    mean_functional_workflow calculate_sfs_workflowM

theorem Pool.lookup_set_self (p : Pool) (k : String) (v : PyVal) :
    (p.set k v).lookup k = some v := by
  induction p with
  | nil => simp [Pool.set, Pool.lookup]
  | cons head tail ih =>
    by_cases h : head.1 = k
    · simp [Pool.set, Pool.lookup, h]
    · simp only [Pool.set, h, if_false]
      simpa [Pool.lookup, h] using ih

theorem Pool.lookup_set_ne (p : Pool) {k k' : String} (v : PyVal) (h : k' ≠ k) :
    (p.set k v).lookup k' = p.lookup k' := by
  induction p with
  | nil =>
    have h3 : ¬ k = k' := fun hx => h hx.symm
    simp [Pool.set, Pool.lookup, h3]
  | cons head tail ih =>
    by_cases h2 : head.1 = k
    · have h3 : ¬ k = k' := fun hx => h hx.symm
      have h4 : ¬ head.1 = k' := by rw [h2]; exact h3
      simp only [Pool.set, h2, if_true]
      simp [Pool.lookup, h3, h4]
    · simp only [Pool.set, h2, if_false]
      by_cases h4 : head.1 = k'
      · simp [Pool.lookup, h4]
      · simp [Pool.lookup, h4, ih]

theorem Pool.hasKey_set (p : Pool) (k k' : String) (v : PyVal) :
    (p.set k v).hasKey k' = (k' == k || p.hasKey k') := by
  by_cases h : k' = k
  · subst h
    simp [Pool.hasKey, Pool.lookup_set_self]
  · simp [Pool.hasKey, Pool.lookup_set_ne p v h, h]

theorem Pool.dictEq_refl (p : Pool) : p.dictEq p = true := by
  simp [Pool.dictEq, List.all_eq_true]

/-- Key-set inclusion between two pools: every key bound in the first is bound
in the second. -/
def SubK (p q : Pool) : Prop :=
  ∀ k, p.hasKey k = true → q.hasKey k = true

theorem SubK.rfl {p : Pool} : SubK p p := fun _ h => h

theorem SubK.trans {p q r : Pool} (h1 : SubK p q) (h2 : SubK q r) : SubK p r :=
  fun k h => h2 k (h1 k h)

theorem SubK.set (p : Pool) (k : String) (v : PyVal) : SubK p (p.set k v) := by
  intro k' h
  simp [Pool.hasKey_set, h]

theorem SubK.of_eq {p q : Pool} (h : q = p) : SubK p q := by
  subst h; exact SubK.rfl

theorem Pool.mem_keys_of_lookup {p : Pool} {k : String} {v : PyVal}
    (h : p.lookup k = some v) : k ∈ p.keys := by
  induction p with
  | nil => simp [Pool.lookup] at h
  | cons head tail ih =>
    by_cases h2 : head.1 = k
    · simp [Pool.keys, h2]
    · simp only [Pool.lookup, h2, if_false] at h
      simp [Pool.keys] at ih ⊢
      exact Or.inr (ih h)

theorem Pool.dictEq_hasKey {p q : Pool} (h : p.dictEq q = true) (k : String) :
    p.hasKey k = q.hasKey k := by
  simp only [Pool.dictEq, Bool.and_eq_true, List.all_eq_true, decide_eq_true_eq] at h
  obtain ⟨h1, h2⟩ := h
  unfold Pool.hasKey
  cases hp : p.lookup k with
  | some v => rw [← h1 k (Pool.mem_keys_of_lookup hp), hp]
  | none =>
    cases hq : q.lookup k with
    | some w =>
      have := h2 k (Pool.mem_keys_of_lookup hq)
      rw [hp, hq] at this
      cases this
    | none => simp

theorem wireIsinstance_ok_effects {st st' : St} {k u i : String}
    (h : wireIsinstance st k u i = .ok st') :
    st'.rp = st.rp ∧ st'.cfg = st.cfg ∧ st'.calls = st.calls ∧ st'.created = st.created ∧
      (st'.params = st.params ∨ ∃ v, st'.params = st.params ++ [(u, i, v)]) := by
  unfold wireIsinstance at h
  split at h
  · cases h
  next v _ =>
    split at h
    · split at h
      · cases h
        exact ⟨rfl, rfl, rfl, rfl, Or.inl rfl⟩
      · cases h
    · cases h
      exact ⟨rfl, rfl, rfl, rfl, Or.inr ⟨v, rfl⟩⟩

theorem wireLen2_ok_effects {st st' : St} {k u i : String}
    (h : wireLen2 st k u i = .ok st') :
    st'.rp = st.rp ∧ st'.cfg = st.cfg ∧ st'.calls = st.calls ∧ st'.created = st.created ∧
      (st'.params = st.params ∨ ∃ v, st'.params = st.params ++ [(u, i, v)]) := by
  unfold wireLen2 at h
  split at h
  · cases h
  next v _ =>
    split at h
    · cases h
    · split at h
      · split at h
        · cases h
        · cases h
          exact ⟨rfl, rfl, rfl, rfl, Or.inl rfl⟩
      · cases h
        exact ⟨rfl, rfl, rfl, rfl, Or.inr ⟨v, rfl⟩⟩

theorem wireSpec_ok_effects {st st' : St} {k u i : String}
    (h : wireSpec st k u i = .ok st') :
    st'.rp = st.rp ∧ st'.cfg = st.cfg ∧ st'.calls = st.calls ∧ st'.created = st.created ∧
      (st'.params = st.params ∨ ∃ v, st'.params = st.params ++ [(u, i, v)]) := by
  unfold wireSpec at h
  split at h
  · cases h
  · cases h
    exact ⟨rfl, rfl, rfl, rfl, Or.inl rfl⟩
  · cases h
  · cases h
    exact ⟨rfl, rfl, rfl, rfl, Or.inr ⟨_, rfl⟩⟩

theorem stallCheckWhen_skip {missing : Bool} {b : BF} {nm : String} {st : St}
    {cont : St → Except PyErr St} (h : missing = false) :
    stallCheckWhen missing b nm st cont = cont st := by
  simp [stallCheckWhen, h]

theorem stallCheckWhen_stall {missing : Bool} {b : BF} {nm : String} {st st₁ : St}
    {cont : St → Except PyErr St} (hm : missing = true) (hb : b nm st = .ok st₁)
    (hd : st₁.rp.dictEq st.rp = true) :
    stallCheckWhen missing b nm st cont = .ok st₁ := by
  simp [stallCheckWhen, hm, hb, hd]

theorem stallCheckWhen_ok_cases {missing : Bool} {b : BF} {nm : String} {st st' : St}
    {cont : St → Except PyErr St} (h : stallCheckWhen missing b nm st cont = .ok st') :
    (missing = false ∧ cont st = .ok st') ∨
      (missing = true ∧ ∃ st₁, b nm st = .ok st₁ ∧
        ((st₁.rp.dictEq st.rp = true ∧ st' = st₁) ∨
          (st₁.rp.dictEq st.rp = false ∧ cont st₁ = .ok st'))) := by
  unfold stallCheckWhen at h
  by_cases hm : missing
  · simp only [hm, if_true] at h
    cases hb : b nm st with
    | error e => rw [hb] at h; cases h
    | ok st₁ =>
      rw [hb] at h
      by_cases hd : st₁.rp.dictEq st.rp
      · simp only [hd, if_true] at h
        cases h
        exact Or.inr ⟨by simpa using hm, st', rfl, Or.inl ⟨by simpa using hd, rfl⟩⟩
      · simp only [hd, if_false] at h
        exact Or.inr ⟨by simpa using hm, st₁, rfl, Or.inr ⟨by simpa using hd, h⟩⟩
  · simp only [Bool.not_eq_true] at hm
    simp only [hm, if_false] at h
    exact Or.inl ⟨hm, h⟩

@[simp] theorem St.logCall_wf (st : St) (s : String) : (st.logCall s).wf = st.wf := rfl
@[simp] theorem St.logCall_rp (st : St) (s : String) : (st.logCall s).rp = st.rp := rfl
@[simp] theorem St.logCall_cfg (st : St) (s : String) : (st.logCall s).cfg = st.cfg := rfl
@[simp] theorem St.logCall_created (st : St) (s : String) : (st.logCall s).created = st.created := rfl
@[simp] theorem St.logCall_params (st : St) (s : String) : (st.logCall s).params = st.params := rfl

@[simp] theorem St.newNode_wf (st : St) (n : String) : (st.newNode n).wf = st.wf := rfl
@[simp] theorem St.newNode_rp (st : St) (n : String) : (st.newNode n).rp = st.rp := rfl
@[simp] theorem St.newNode_cfg (st : St) (n : String) : (st.newNode n).cfg = st.cfg := rfl
@[simp] theorem St.newNode_params (st : St) (n : String) : (st.newNode n).params = st.params := rfl
@[simp] theorem St.newNode_calls (st : St) (n : String) : (st.newNode n).calls = st.calls := rfl

@[simp] theorem St.setParam_wf (st : St) (u i : String) (v : PyVal) :
    (st.setParam u i v).wf = st.wf := rfl
@[simp] theorem St.setParam_rp (st : St) (u i : String) (v : PyVal) :
    (st.setParam u i v).rp = st.rp := rfl
@[simp] theorem St.setParam_cfg (st : St) (u i : String) (v : PyVal) :
    (st.setParam u i v).cfg = st.cfg := rfl
@[simp] theorem St.setParam_created (st : St) (u i : String) (v : PyVal) :
    (st.setParam u i v).created = st.created := rfl
@[simp] theorem St.setParam_calls (st : St) (u i : String) (v : PyVal) :
    (st.setParam u i v).calls = st.calls := rfl

@[simp] theorem St.connect_rp (st : St) (s sp d dp : String) :
    (st.connect s sp d dp).rp = st.rp := rfl
@[simp] theorem St.connect_cfg (st : St) (s sp d dp : String) :
    (st.connect s sp d dp).cfg = st.cfg := rfl
@[simp] theorem St.connect_created (st : St) (s sp d dp : String) :
    (st.connect s sp d dp).created = st.created := rfl
@[simp] theorem St.connect_params (st : St) (s sp d dp : String) :
    (st.connect s sp d dp).params = st.params := rfl
@[simp] theorem St.connect_calls (st : St) (s sp d dp : String) :
    (st.connect s sp d dp).calls = st.calls := rfl

@[simp] theorem St.rpSet_wf (st : St) (k : String) (v : PyVal) : (st.rpSet k v).wf = st.wf := rfl
@[simp] theorem St.rpSet_rp (st : St) (k : String) (v : PyVal) :
    (st.rpSet k v).rp = st.rp.set k v := rfl
@[simp] theorem St.rpSet_cfg (st : St) (k : String) (v : PyVal) : (st.rpSet k v).cfg = st.cfg := rfl
@[simp] theorem St.rpSet_created (st : St) (k : String) (v : PyVal) :
    (st.rpSet k v).created = st.created := rfl
@[simp] theorem St.rpSet_params (st : St) (k : String) (v : PyVal) :
    (st.rpSet k v).params = st.params := rfl
@[simp] theorem St.rpSet_calls (st : St) (k : String) (v : PyVal) :
    (st.rpSet k v).calls = st.calls := rfl

@[simp] theorem St.cfgSet_wf (st : St) (k : String) (v : PyVal) : (st.cfgSet k v).wf = st.wf := rfl
@[simp] theorem St.cfgSet_rp (st : St) (k : String) (v : PyVal) : (st.cfgSet k v).rp = st.rp := rfl
@[simp] theorem St.cfgSet_cfg (st : St) (k : String) (v : PyVal) :
    (st.cfgSet k v).cfg = st.cfg.set k v := rfl
@[simp] theorem St.cfgSet_created (st : St) (k : String) (v : PyVal) :
    (st.cfgSet k v).created = st.created := rfl
@[simp] theorem St.cfgSet_params (st : St) (k : String) (v : PyVal) :
    (st.cfgSet k v).params = st.params := rfl
@[simp] theorem St.cfgSet_calls (st : St) (k : String) (v : PyVal) :
    (st.cfgSet k v).calls = st.calls := rfl

theorem bindOk {α β : Type} {x : Except PyErr α} {f : α → Except PyErr β} {b : β}
    (h : (x >>= f) = .ok b) : ∃ a, x = .ok a ∧ f a = .ok b := by
  cases x with
  | error e => cases h
  | ok a => exact ⟨a, rfl, h⟩

theorem pureOk {α : Type} {a b : α} (h : (pure a : Except PyErr α) = .ok b) : b = a := by
  cases h; rfl

theorem rpGetOk {st : St} {k : String} {v : PyVal} (h : st.rpGet k = .ok v) :
    st.rp.lookup k = some v := by
  unfold St.rpGet at h
  split at h
  · cases h; assumption
  · cases h

theorem cfgGetOk {st : St} {k : String} {v : PyVal} (h : st.cfgGet k = .ok v) :
    st.cfg.lookup k = some v := by
  unfold St.cfgGet at h
  split at h
  · cases h; assumption
  · cases h

theorem bindOkE {α β : Type} {x : Except PyErr α} {f : α → Except PyErr β} {b : β}
    (h : Except.bind x f = .ok b) : ∃ a, x = .ok a ∧ f a = .ok b := by
  cases x with
  | error e => cases h
  | ok a => exact ⟨a, rfl, h⟩

theorem okOk {α : Type} {a b : α} (h : (Except.ok a : Except PyErr α) = .ok b) : b = a := by
  cases h; rfl

theorem qap_mask_wire_effects {nm : String} {st st' : St}
    (h : qap_mask_wire nm st = .ok st') :
    st'.rp = ((st.rp.set "anat_qap_head_mask"
        (.tup ["qap_headmask_combine_masks" ++ nm, "out_file"])).set
        "anat_whole_head_mask" (.tup ["qap_headmask_scipy_fill" ++ nm, "out_file"])).set
        "anat_skull_only_mask" (.tup ["qap_headmask_subtract_masks" ++ nm, "out_file"])
      ∧ st'.cfg = st.cfg ∧ st'.calls = st.calls := by
  unfold qap_mask_wire at h
  obtain ⟨v, hv, h⟩ := bindOkE h
  obtain ⟨st2, h2, h⟩ := bindOkE h
  obtain ⟨v2, hv2, h⟩ := bindOkE h
  obtain ⟨st3, h3, h⟩ := bindOkE h
  have hst := okOk h
  subst hst
  have e2 : st2.rp = st.rp ∧ st2.cfg = st.cfg ∧ st2.calls = st.calls := by
    by_cases ht : v.isTup
    · simp only [ht, if_true] at h2
      obtain ⟨np, hnp, h2⟩ := bindOkE h2
      have := okOk h2
      subst this
      simp
    · simp only [ht, Bool.false_eq_true, if_false] at h2
      have := okOk h2
      subst this
      simp
  have e3 : st3.rp = st2.rp ∧ st3.cfg = st2.cfg ∧ st3.calls = st2.calls := by
    by_cases ht : v2.isTup
    · simp only [ht, if_true] at h3
      obtain ⟨np, hnp, h3⟩ := bindOkE h3
      have := okOk h3
      subst this
      simp
    · simp only [ht, Bool.false_eq_true, if_false] at h3
      have := okOk h3
      subst this
      simp
  refine ⟨?_, ?_, ?_⟩ <;> simp [e3.1, e3.2.1, e3.2.2, e2.1, e2.2.1, e2.2.2]

theorem calculate_artifacts_background_wire_effects {nm : String} {st st' : St}
    (h : calculate_artifacts_background_wire nm st = .ok st') :
    st'.rp = (st.rp.set "anat_fav_artifacts_background"
        (.tup ["calculate_artifacts" ++ nm, "fav_bg_file"])).set
        "anat_qap_bg_head_mask" (.tup ["calculate_artifacts" ++ nm, "bg_mask_file"])
      ∧ st'.cfg = st.cfg ∧ st'.calls = st.calls := by
  unfold calculate_artifacts_background_wire at h
  obtain ⟨v, hv, h⟩ := bindOkE h
  obtain ⟨st2, h2, h⟩ := bindOkE h
  obtain ⟨st3, h3, h⟩ := bindOkE h
  have hst := okOk h
  subst hst
  obtain ⟨e2rp, e2cfg, e2calls, _, _⟩ := wireIsinstance_ok_effects h2
  obtain ⟨e3rp, e3cfg, e3calls, _, _⟩ := wireIsinstance_ok_effects h3
  refine ⟨?_, ?_, ?_⟩ <;> simp [e3rp, e3cfg, e3calls, e2rp, e2cfg, e2calls]

theorem calculate_temporal_std_effects {nm : String} {st st' : St}
    (h : calculate_temporal_std nm st = .ok st') :
    st'.rp = st.rp.set "func_temporal_std_map"
        (.tup ["calculate_temporal_std" ++ nm, "temporal_std_map_file"])
      ∧ st'.cfg = st.cfg ∧ st'.calls = st.calls ++ ["calculate_temporal_std"] := by
  unfold calculate_temporal_std at h
  obtain ⟨st2, h2, h⟩ := bindOkE h
  obtain ⟨st3, h3, h⟩ := bindOkE h
  have hst := okOk h
  subst hst
  obtain ⟨e2rp, e2cfg, e2calls, _, _⟩ := wireIsinstance_ok_effects h2
  obtain ⟨e3rp, e3cfg, e3calls, _, _⟩ := wireIsinstance_ok_effects h3
  refine ⟨?_, ?_, ?_⟩ <;>
    simp [e3rp, e3cfg, e3calls, e2rp, e2cfg, e2calls, St.logCall]

theorem calculate_sfs_wire_effects {nm : String} {st st' : St}
    (h : calculate_sfs_wire nm st = .ok st') :
    st'.rp = ((st.rp.set "func_SFS" (.tup ["calculate_sfs" ++ nm, "sfs_file"])).set
        "func_estimated_nuisance" (.tup ["calculate_sfs" ++ nm, "est_nuisance_file"])).set
        "func_estimated_nuisance_csf" (.tup ["calculate_sfs" ++ nm, "est_nuisance_file_csf"])
      ∧ st'.cfg = st.cfg ∧ st'.calls = st.calls := by
  unfold calculate_sfs_wire at h
  obtain ⟨st2, h2, h⟩ := bindOkE h
  obtain ⟨st3, h3, h⟩ := bindOkE h
  obtain ⟨st4, h4, h⟩ := bindOkE h
  have hst := okOk h
  subst hst
  obtain ⟨e2rp, e2cfg, e2calls, _, _⟩ := wireIsinstance_ok_effects h2
  obtain ⟨e3rp, e3cfg, e3calls, _, _⟩ := wireIsinstance_ok_effects h3
  obtain ⟨e4rp, e4cfg, e4calls, _, _⟩ := wireIsinstance_ok_effects h4
  refine ⟨?_, ?_, ?_⟩ <;>
    simp [e4rp, e4cfg, e4calls, e3rp, e3cfg, e3calls, e2rp, e2cfg, e2calls]

theorem qap_gather_header_info_effects {data_type nm : String} {st st' : St}
    (h : qap_gather_header_info data_type nm st = .ok st') :
    (∃ j, st'.rp = st.rp.set (data_type ++ "_header_info") (.str j))
      ∧ st'.cfg = st.cfg ∧ st'.calls = st.calls ++ ["qap_gather_header_info"] := by
  unfold qap_gather_header_info at h
  obtain ⟨v1, hv1, h⟩ := bindOkE h
  obtain ⟨v2, hv2, h⟩ := bindOkE h
  obtain ⟨v3, hv3, h⟩ := bindOkE h
  obtain ⟨od, hod, h⟩ := bindOkE h
  obtain ⟨rn, hrn, h⟩ := bindOkE h
  obtain ⟨sn, hsn, h⟩ := bindOkE h
  obtain ⟨sub, hsub, h⟩ := bindOkE h
  obtain ⟨ses, hses, h⟩ := bindOkE h
  obtain ⟨scn, hscn, h⟩ := bindOkE h
  have hst := okOk h
  subst hst
  refine ⟨⟨String.intercalate "/" [od.render, rn.render, sn.render, sub.render, ses.render] ++
    "/" ++ sub.render ++ "_" ++ ses.render ++ "_" ++ scn.render ++ "_qap-" ++ data_type ++
    ".json", ?_⟩, ?_, ?_⟩ <;> (repeat' split) <;> simp [St.logCall]

@[simp] theorem siteNameBind_wf (st : St) (u : String) : (siteNameBind st u).wf = st.wf := by
  unfold siteNameBind
  rcases st.rp.lookup "site_name" <;> rcases st.cfg.lookup "site_name" <;> simp

@[simp] theorem siteNameBind_rp (st : St) (u : String) : (siteNameBind st u).rp = st.rp := by
  unfold siteNameBind
  rcases st.rp.lookup "site_name" <;> rcases st.cfg.lookup "site_name" <;> simp

@[simp] theorem siteNameBind_cfg (st : St) (u : String) : (siteNameBind st u).cfg = st.cfg := by
  unfold siteNameBind
  rcases st.rp.lookup "site_name" <;> rcases st.cfg.lookup "site_name" <;> simp

@[simp] theorem siteNameBind_created (st : St) (u : String) :
    (siteNameBind st u).created = st.created := by
  unfold siteNameBind
  rcases st.rp.lookup "site_name" <;> rcases st.cfg.lookup "site_name" <;> simp

@[simp] theorem siteNameBind_calls (st : St) (u : String) :
    (siteNameBind st u).calls = st.calls := by
  unfold siteNameBind
  rcases st.rp.lookup "site_name" <;> rcases st.cfg.lookup "site_name" <;> simp

@[simp] theorem siteNameCfgBind_wf (st : St) (u : String) :
    (siteNameCfgBind st u).wf = st.wf := by
  unfold siteNameCfgBind
  rcases st.cfg.lookup "site_name" <;> simp

@[simp] theorem siteNameCfgBind_rp (st : St) (u : String) :
    (siteNameCfgBind st u).rp = st.rp := by
  unfold siteNameCfgBind
  rcases st.cfg.lookup "site_name" <;> simp

@[simp] theorem siteNameCfgBind_cfg (st : St) (u : String) :
    (siteNameCfgBind st u).cfg = st.cfg := by
  unfold siteNameCfgBind
  rcases st.cfg.lookup "site_name" <;> simp

@[simp] theorem siteNameCfgBind_created (st : St) (u : String) :
    (siteNameCfgBind st u).created = st.created := by
  unfold siteNameCfgBind
  rcases st.cfg.lookup "site_name" <;> simp

@[simp] theorem siteNameCfgBind_calls (st : St) (u : String) :
    (siteNameCfgBind st u).calls = st.calls := by
  unfold siteNameCfgBind
  rcases st.cfg.lookup "site_name" <;> simp

theorem fdInFileBind_ok_effects {st st' : St} {fd : String}
    (h : fdInFileBind st fd = .ok st') :
    st'.rp = st.rp ∧ st'.cfg = st.cfg ∧ st'.calls = st.calls ∧ st'.created = st.created := by
  unfold fdInFileBind at h
  split at h
  · have := okOk h
    subst this
    simp
  · obtain ⟨e1, e2, e3, e4, _⟩ := wireLen2_ok_effects h
    exact ⟨e1, e2, e3, e4⟩

theorem qap_anatomical_spatial_mosaic_effects {nm : String} {st st' : St}
    (h : qap_anatomical_spatial_mosaic nm st = .ok st') :
    st'.rp = (st.rp.set "mean_epi_mosaic" (.tup ["plot_mosaic" ++ nm, "out_file"])).set
        "qap_mosaic" (.tup ["plot_mosaic" ++ nm, "out_file"])
      ∧ st'.cfg = st.cfg ∧ st'.calls = st.calls := by
  unfold qap_anatomical_spatial_mosaic at h
  obtain ⟨v, hv, h⟩ := bindOkE h
  obtain ⟨ses, hses, h⟩ := bindOkE h
  obtain ⟨scn, hscn, h⟩ := bindOkE h
  obtain ⟨st2, h2, h⟩ := bindOkE h
  have hst := okOk h
  subst hst
  obtain ⟨e2rp, e2cfg, e2calls, _, _⟩ := wireLen2_ok_effects h2
  refine ⟨?_, ?_, ?_⟩ <;> simp [e2rp, e2cfg, e2calls]

theorem qap_functional_mosaic_effects {nm : String} {st st' : St}
    (h : qap_functional_mosaic nm st = .ok st') :
    st'.rp = st.rp.set "qap_mosaic" (.tup ["plot_mosaic" ++ nm, "out_file"])
      ∧ st'.cfg = st.cfg ∧ st'.calls = st.calls := by
  unfold qap_functional_mosaic at h
  obtain ⟨v, hv, h⟩ := bindOkE h
  obtain ⟨ses, hses, h⟩ := bindOkE h
  obtain ⟨scn, hscn, h⟩ := bindOkE h
  obtain ⟨st2, h2, h⟩ := bindOkE h
  have hst := okOk h
  subst hst
  obtain ⟨e2rp, e2cfg, e2calls, _, _⟩ := wireLen2_ok_effects h2
  refine ⟨?_, ?_, ?_⟩ <;> simp [e2rp, e2cfg, e2calls]

theorem qap_functional_grayplot_effects {nm : String} {st st' : St}
    (h : qap_functional_grayplot nm st = .ok st') :
    st'.rp = (st.rp.set "timeseries_measures" (.tup ["grayplot" ++ nm, "out_file"])).set
        "grayplot-cluster" (.tup ["grayplot" ++ nm, "out_cluster"])
      ∧ st'.cfg = st.cfg ∧ st'.calls = st.calls := by
  unfold qap_functional_grayplot at h
  obtain ⟨x1, hx1, h⟩ := bindOkE h
  obtain ⟨x2, hx2, h⟩ := bindOkE h
  obtain ⟨od, hod, h⟩ := bindOkE h
  obtain ⟨rn, hrn, h⟩ := bindOkE h
  obtain ⟨sn, hsn, h⟩ := bindOkE h
  obtain ⟨sub, hsub, h⟩ := bindOkE h
  obtain ⟨ses, hses, h⟩ := bindOkE h
  obtain ⟨scn, hscn, h⟩ := bindOkE h
  obtain ⟨v, hv, h⟩ := bindOkE h
  obtain ⟨st2, h2, h⟩ := bindOkE h
  obtain ⟨st3, h3, h⟩ := bindOkE h
  have hst := okOk h
  subst hst
  obtain ⟨e2rp, e2cfg, e2calls, _, _⟩ := wireLen2_ok_effects h2
  obtain ⟨e3rp, e3cfg, e3calls, _, _⟩ := wireLen2_ok_effects h3
  refine ⟨?_, ?_, ?_⟩ <;> simp [e3rp, e3cfg, e3calls, e2rp, e2cfg, e2calls]

theorem qap_anatomical_spatial_wire_effects {nm : String} {st st' : St}
    (h : qap_anatomical_spatial_wire nm st = .ok st') :
    SubK st.rp st'.rp ∧ st'.cfg = st.cfg ∧ st'.calls = st.calls := by
  unfold qap_anatomical_spatial_wire at h
  obtain ⟨v1, hv1, h⟩ := bindOkE h
  obtain ⟨v2, hv2, h⟩ := bindOkE h
  obtain ⟨v3, hv3, h⟩ := bindOkE h
  obtain ⟨v4, hv4, h⟩ := bindOkE h
  obtain ⟨v5, hv5, h⟩ := bindOkE h
  obtain ⟨v6, hv6, h⟩ := bindOkE h
  obtain ⟨v7, hv7, h⟩ := bindOkE h
  obtain ⟨np, hnp, h⟩ := bindOkE h
  obtain ⟨stA, hA, h⟩ := bindOkE h
  obtain ⟨stB, hB, h⟩ := bindOkE h
  obtain ⟨stC, hC, h⟩ := bindOkE h
  obtain ⟨stD, hD, h⟩ := bindOkE h
  obtain ⟨stE, hE, h⟩ := bindOkE h
  obtain ⟨stF, hF, h⟩ := bindOkE h
  obtain ⟨stG, hG, h⟩ := bindOkE h
  obtain ⟨stH, hH, h⟩ := bindOkE h
  obtain ⟨stI, hI, h⟩ := bindOkE h
  obtain ⟨stJ, hJ, h⟩ := bindOkE h
  obtain ⟨w1, hw1, h⟩ := bindOkE h
  obtain ⟨w2, hw2, h⟩ := bindOkE h
  obtain ⟨w3, hw3, h⟩ := bindOkE h
  obtain ⟨w4, hw4, h⟩ := bindOkE h
  obtain ⟨w5, hw5, h⟩ := bindOkE h
  obtain ⟨w6, hw6, h⟩ := bindOkE h
  have hst := okOk h
  subst hst
  obtain ⟨eArp, eAcfg, eAcalls, _, _⟩ := wireIsinstance_ok_effects hA
  obtain ⟨eBrp, eBcfg, eBcalls, _, _⟩ := wireIsinstance_ok_effects hB
  obtain ⟨eCrp, eCcfg, eCcalls, _, _⟩ := wireIsinstance_ok_effects hC
  obtain ⟨eDrp, eDcfg, eDcalls, _, _⟩ := wireIsinstance_ok_effects hD
  obtain ⟨eErp, eEcfg, eEcalls, _, _⟩ := wireIsinstance_ok_effects hE
  obtain ⟨eFrp, eFcfg, eFcalls, _, _⟩ := wireIsinstance_ok_effects hF
  obtain ⟨eGrp, eGcfg, eGcalls, _, _⟩ := wireLen2_ok_effects hG
  obtain ⟨eHrp, eHcfg, eHcalls, _, _⟩ := wireLen2_ok_effects hH
  obtain ⟨eIrp, eIcfg, eIcalls, _, _⟩ := wireIsinstance_ok_effects hI
  have eI0 : stI.rp = st.rp ∧ stI.cfg = st.cfg ∧ stI.calls = st.calls := by
    rw [eIrp, eHrp, eGrp, eFrp, eErp, eDrp, eCrp, eBrp, eArp,
      eIcfg, eHcfg, eGcfg, eFcfg, eEcfg, eDcfg, eCcfg, eBcfg, eAcfg,
      eIcalls, eHcalls, eGcalls, eFcalls, eEcalls, eDcalls, eCcalls, eBcalls, eAcalls]
    simp
  have eJ : SubK stI.rp stJ.rp ∧ stJ.cfg = stI.cfg ∧ stJ.calls = stI.calls := by
    by_cases hc : (stI.cfgGetD "write_report" (.bool false)).pyTruthy
    · simp only [hc, if_true] at hJ
      obtain ⟨jrp, jcfg, jcalls⟩ := qap_anatomical_spatial_mosaic_effects hJ
      refine ⟨?_, jcfg, jcalls⟩
      rw [jrp]
      exact SubK.trans (SubK.set _ _ _) (SubK.set _ _ _)
    · simp only [hc, Bool.false_eq_true, if_false] at hJ
      have := okOk hJ
      subst this
      exact ⟨SubK.rfl, rfl, rfl⟩
  refine ⟨?_, ?_, ?_⟩
  · have h1 : SubK st.rp stJ.rp := eI0.1 ▸ eJ.1
    refine SubK.trans h1 ?_
    simp only [St.rpSet_rp, St.connect_rp, St.setParam_rp, St.newNode_rp]
    exact SubK.set _ _ _
  · simp only [St.rpSet_cfg, St.connect_cfg, St.setParam_cfg, St.newNode_cfg]
    rw [eJ.2.1, eI0.2.1]
  · simp only [St.rpSet_calls, St.connect_calls, St.setParam_calls, St.newNode_calls]
    rw [eJ.2.2, eI0.2.2]

theorem qap_functional_wire2_effects {nm : String} {st st' : St}
    (h : qap_functional_wire2 nm st = .ok st') :
    SubK st.rp st'.rp ∧ st'.cfg = st.cfg ∧ st'.calls = st.calls := by
  unfold qap_functional_wire2 at h
  obtain ⟨v1, hv1, h⟩ := bindOkE h
  obtain ⟨v2, hv2, h⟩ := bindOkE h
  obtain ⟨v3, hv3, h⟩ := bindOkE h
  obtain ⟨v4, hv4, h⟩ := bindOkE h
  obtain ⟨stA, hA, h⟩ := bindOkE h
  obtain ⟨stB, hB, h⟩ := bindOkE h
  obtain ⟨stC, hC, h⟩ := bindOkE h
  obtain ⟨w1, hw1, h⟩ := bindOkE h
  obtain ⟨w2, hw2, h⟩ := bindOkE h
  obtain ⟨w3, hw3, h⟩ := bindOkE h
  obtain ⟨w4, hw4, h⟩ := bindOkE h
  obtain ⟨w5, hw5, h⟩ := bindOkE h
  obtain ⟨vfr, hvfr, h⟩ := bindOkE h
  obtain ⟨nfr, hnfr, h⟩ := bindOkE h
  obtain ⟨stD, hD, h⟩ := bindOkE h
  obtain ⟨vfm, hvfm, h⟩ := bindOkE h
  obtain ⟨nfm, hnfm, h⟩ := bindOkE h
  obtain ⟨stE, hE, h⟩ := bindOkE h
  obtain ⟨stF, hF, h⟩ := bindOkE h
  obtain ⟨stG, hG, h⟩ := bindOkE h
  obtain ⟨stH, hH, h⟩ := bindOkE h
  obtain ⟨od, hod, h⟩ := bindOkE h
  obtain ⟨rn, hrn, h⟩ := bindOkE h
  obtain ⟨sn, hsn, h⟩ := bindOkE h
  obtain ⟨sub, hsub, h⟩ := bindOkE h
  obtain ⟨ses, hses, h⟩ := bindOkE h
  obtain ⟨scn, hscn, h⟩ := bindOkE h
  obtain ⟨wr, hwr, h⟩ := bindOkE h
  obtain ⟨eArp, eAcfg, eAcalls, _, _⟩ := wireLen2_ok_effects hA
  obtain ⟨eBrp, eBcfg, eBcalls, _, _⟩ := wireLen2_ok_effects hB
  have e0 : stB.rp = st.rp ∧ stB.cfg = st.cfg ∧ stB.calls = st.calls := by
    rw [eBrp, eArp, eBcfg, eAcfg, eBcalls, eAcalls]
    simp
  have eC : SubK stB.rp stC.rp ∧ stC.cfg = stB.cfg ∧ stC.calls = stB.calls := by
    by_cases hc : (stB.cfgGetD "write_report" (.bool false)).pyTruthy
    · simp only [hc, if_true] at hC
      obtain ⟨crp, ccfg, ccalls⟩ := qap_functional_mosaic_effects hC
      exact ⟨by rw [crp]; exact SubK.set _ _ _, ccfg, ccalls⟩
    · simp only [hc, Bool.false_eq_true, if_false] at hC
      have := okOk hC
      subst this
      exact ⟨SubK.rfl, rfl, rfl⟩
  have eD : stD.rp = stC.rp ∧ stD.cfg = stC.cfg ∧ stD.calls = stC.calls := by
    by_cases hn : nfr = 2
    · rw [if_pos hn] at hD
      obtain ⟨np, hnp, hD⟩ := bindOkE hD
      have := okOk hD
      subst this
      simp
    · rw [if_neg hn] at hD
      obtain ⟨u, hu, hD⟩ := bindOkE hD
      have := okOk hD
      subst this
      simp
  have eE : stE.rp = stD.rp ∧ stE.cfg = stD.cfg ∧ stE.calls = stD.calls := by
    by_cases hn : nfm = 2
    · rw [if_pos hn] at hE
      obtain ⟨np, hnp, hE⟩ := bindOkE hE
      have := okOk hE
      subst this
      simp
    · rw [if_neg hn] at hE
      obtain ⟨u, hu, hE⟩ := bindOkE hE
      have := okOk hE
      subst this
      simp
  obtain ⟨eFrp, eFcfg, eFcalls, _, _⟩ := wireLen2_ok_effects hF
  obtain ⟨eGrp, eGcfg, eGcalls, _, _⟩ := wireLen2_ok_effects hG
  obtain ⟨eHrp, eHcfg, eHcalls, _, _⟩ := wireIsinstance_ok_effects hH
  have eH0 : stH.rp = stC.rp ∧ stH.cfg = stC.cfg ∧ stH.calls = stC.calls := by
    rw [eHrp, eGrp, eFrp, eE.1, eD.1, eHcfg, eGcfg, eFcfg, eE.2.1, eD.2.1,
      eHcalls, eGcalls, eFcalls, eE.2.2, eD.2.2]
    exact ⟨rfl, rfl, rfl⟩
  have efin : SubK stH.rp st'.rp ∧ st'.cfg = stH.cfg ∧ st'.calls = stH.calls := by
    by_cases hw : wr.pyTruthy
    · simp only [hw, if_true] at h
      obtain ⟨grp, gcfg, gcalls⟩ := qap_functional_grayplot_effects h
      refine ⟨?_, ?_, ?_⟩
      · rw [grp]
        simp only [St.rpSet_rp, St.connect_rp, St.setParam_rp, St.newNode_rp]
        exact SubK.trans (SubK.set _ _ _)
          (SubK.trans (SubK.set _ _ _) (SubK.set _ _ _))
      · rw [gcfg]
        simp
      · rw [gcalls]
        simp
    · simp only [hw, Bool.false_eq_true, if_false] at h
      have := okOk h
      subst this
      refine ⟨?_, by simp, by simp⟩
      simp only [St.rpSet_rp, St.connect_rp, St.setParam_rp, St.newNode_rp]
      exact SubK.set _ _ _
  refine ⟨?_, ?_, ?_⟩
  · exact SubK.trans (SubK.of_eq e0.1)
      (SubK.trans eC.1 (SubK.trans (SubK.of_eq eH0.1) efin.1))
  · rw [efin.2.1, eH0.2.1, eC.2.1, e0.2.1]
  · rw [efin.2.2, eH0.2.2, eC.2.2, e0.2.2]

theorem qap_functional_wire_effects {nm : String} {st st' : St}
    (h : qap_functional_wire nm st = .ok st') :
    SubK st.rp st'.rp ∧ st'.calls = st.calls ∧
      (st.cfg.hasKey "ghost_direction" = true → st'.cfg = st.cfg) ∧
      (st.cfg.hasKey "ghost_direction" = false →
        st'.cfg = st.cfg.set "ghost_direction" (.str "y")) := by
  unfold qap_functional_wire at h
  obtain ⟨stA, hA, h⟩ := bindOkE h
  obtain ⟨eArp, eAcfg, eAcalls, eAcr⟩ := fdInFileBind_ok_effects hA
  by_cases hg : st.cfg.hasKey "ghost_direction"
  · simp only [St.newNode_cfg, eAcfg, hg, if_true] at h
    obtain ⟨v, hv, h⟩ := bindOkE h
    obtain ⟨w2rp, w2cfg, w2calls⟩ := qap_functional_wire2_effects h
    rw [St.setParam_rp, St.newNode_rp, eArp] at w2rp
    rw [St.setParam_cfg, St.newNode_cfg, eAcfg] at w2cfg
    rw [St.setParam_calls, St.newNode_calls, eAcalls] at w2calls
    simp only [St.newNode_rp] at w2rp
    simp only [St.newNode_cfg] at w2cfg
    simp only [St.newNode_calls] at w2calls
    refine ⟨w2rp, w2calls, fun _ => w2cfg, ?_⟩
    intro hf
    rw [hf] at hg
    cases hg
  · simp only [Bool.not_eq_true] at hg
    simp only [St.newNode_cfg, eAcfg, hg, Bool.false_eq_true, if_false] at h
    obtain ⟨v, hv, h⟩ := bindOkE h
    obtain ⟨w2rp, w2cfg, w2calls⟩ := qap_functional_wire2_effects h
    rw [St.setParam_rp, St.cfgSet_rp, St.newNode_rp, eArp] at w2rp
    rw [St.setParam_cfg, St.cfgSet_cfg, St.newNode_cfg, eAcfg] at w2cfg
    rw [St.setParam_calls, St.cfgSet_calls, St.newNode_calls, eAcalls] at w2calls
    simp only [St.newNode_rp] at w2rp
    simp only [St.newNode_cfg] at w2cfg
    simp only [St.newNode_calls] at w2calls
    refine ⟨w2rp, w2calls, ?_, fun _ => w2cfg⟩
    intro ht
    rw [ht] at hg
    cases hg

theorem St.paramLookup_setParam_self (st : St) (u i : String) (v : PyVal) :
    (st.setParam u i v).paramLookup u i = some v := by
  unfold St.paramLookup St.setParam
  simp [List.find?]

theorem St.paramLookup_setParam_ne_input (st : St) {i' i : String} (u' u : String) (v : PyVal)
    (h : i' ≠ i) : (st.setParam u' i' v).paramLookup u i = st.paramLookup u i := by
  unfold St.paramLookup St.setParam
  simp [List.find?, h]

theorem St.paramLookup_eq_of_params {s1 s2 : St} (h : s2.params = s1.params) (u i : String) :
    s2.paramLookup u i = s1.paramLookup u i := by
  unfold St.paramLookup
  rw [h]

theorem St.paramLookup_params_append {s1 s2 : St} {u' i' : String} {v : PyVal}
    (h : s2.params = s1.params ++ [(u', i', v)]) {i : String} (hne : i' ≠ i) (u : String) :
    s2.paramLookup u i = s1.paramLookup u i := by
  unfold St.paramLookup
  rw [h]
  simp [List.find?, hne]

/-- A builder never removes a key from the resource pool: every key bound
before the call is still bound after it (spec §8 "Monotonic growth"). -/
def KeyMono (b : BF) : Prop :=
  ∀ nm s1 s2, b nm s1 = .ok s2 → SubK s1.rp s2.rp

/-- A builder leaves the config dict exactly as it received it. -/
def CfgSame (b : BF) : Prop :=
  ∀ nm s1 s2, b nm s1 = .ok s2 → s2.cfg = s1.cfg

theorem stallCheckWhen_keyMono {missing : Bool} {b : BF} {nm : String} {st st' : St}
    {cont : St → Except PyErr St}
    (hb : ∀ s1 s2, b nm s1 = .ok s2 → SubK s1.rp s2.rp)
    (hc : ∀ s1 s2, cont s1 = .ok s2 → SubK s1.rp s2.rp)
    (h : stallCheckWhen missing b nm st cont = .ok st') : SubK st.rp st'.rp := by
  rcases stallCheckWhen_ok_cases h with ⟨_, hcx⟩ | ⟨_, s1, hbx, hrest⟩
  · exact hc _ _ hcx
  · rcases hrest with ⟨_, rfl⟩ | ⟨_, hcx⟩
    · exact hb _ _ hbx
    · exact SubK.trans (hb _ _ hbx) (hc _ _ hcx)

theorem stallCheckWhen_cfgProp {missing : Bool} {b : BF} {nm : String} {st st' : St}
    {cont : St → Except PyErr St} {P : Pool → Pool → Prop}
    (hrefl : ∀ c, P c c)
    (hb : ∀ s1 s2, b nm s1 = .ok s2 → s2.cfg = s1.cfg)
    (hc : ∀ s1 s2, cont s1 = .ok s2 → P s1.cfg s2.cfg)
    (h : stallCheckWhen missing b nm st cont = .ok st') : P st.cfg st'.cfg := by
  rcases stallCheckWhen_ok_cases h with ⟨_, hcx⟩ | ⟨_, s1, hbx, hrest⟩
  · exact hc _ _ hcx
  · rcases hrest with ⟨_, rfl⟩ | ⟨_, hcx⟩
    · rw [hb _ _ hbx]
      exact hrefl _
    · have hx := hc _ _ hcx
      rwa [hb _ _ hbx] at hx

theorem anatomical_reorient_keyMono : KeyMono anatomical_reorient_workflow := by
  intro nm s1 s2 h
  simp only [anatomical_reorient_workflow] at h
  split at h
  · split at h
    · cases h
    next stW heq =>
      cases h
      obtain ⟨erp, _, _, _, _⟩ := wireSpec_ok_effects heq
      simp only [St.rpSet_rp]
      rw [erp]
      simp only [St.newNode_rp, St.logCall_rp]
      exact SubK.set _ _ _
  · cases h
    exact SubK.rfl

theorem anatomical_reorient_cfgSame : CfgSame anatomical_reorient_workflow := by
  intro nm s1 s2 h
  simp only [anatomical_reorient_workflow] at h
  split at h
  · split at h
    · cases h
    next stW heq =>
      cases h
      obtain ⟨_, ecfg, _, _, _⟩ := wireSpec_ok_effects heq
      simp only [St.rpSet_cfg]
      rw [ecfg]
      simp
  · cases h
    rfl

theorem afni_registration_keyMono : KeyMono afni_anatomical_linear_registration := by
  intro nm s1 s2 h
  simp only [afni_anatomical_linear_registration] at h
  split at h
  · split at h
    · cases h
    next stW heq =>
      cases h
      obtain ⟨erp, _, _, _, _⟩ := wireSpec_ok_effects heq
      simp only [St.rpSet_rp]
      rw [erp]
      simp only [St.newNode_rp, St.logCall_rp]
      exact SubK.set _ _ _
  · cases h
    exact SubK.rfl

theorem afni_registration_cfgSame : CfgSame afni_anatomical_linear_registration := by
  intro nm s1 s2 h
  simp only [afni_anatomical_linear_registration] at h
  split at h
  · split at h
    · cases h
    next stW heq =>
      cases h
      obtain ⟨_, ecfg, _, _, _⟩ := wireSpec_ok_effects heq
      simp only [St.rpSet_cfg]
      rw [ecfg]
      simp
  · cases h
    rfl

theorem afni_segmentation_keyMono : KeyMono afni_segmentation_workflow := by
  intro nm s1 s2 h
  simp only [afni_segmentation_workflow] at h
  split at h
  · split at h
    · cases h
    next stW heq =>
      cases h
      obtain ⟨erp, _, _, _, _⟩ := wireSpec_ok_effects heq
      simp only [St.rpSet_rp]
      rw [erp]
      simp only [St.newNode_rp, St.logCall_rp]
      exact SubK.trans (SubK.set _ _ _) (SubK.trans (SubK.set _ _ _) (SubK.set _ _ _))
  · cases h
    exact SubK.rfl

theorem afni_segmentation_cfgSame : CfgSame afni_segmentation_workflow := by
  intro nm s1 s2 h
  simp only [afni_segmentation_workflow] at h
  split at h
  · split at h
    · cases h
    next stW heq =>
      cases h
      obtain ⟨_, ecfg, _, _, _⟩ := wireSpec_ok_effects heq
      simp only [St.rpSet_cfg]
      rw [ecfg]
      simp
  · cases h
    rfl

theorem invert_brain_mask_keyMono : KeyMono invert_functional_brain_mask_workflow := by
  intro nm s1 s2 h
  simp only [invert_functional_brain_mask_workflow] at h
  split at h
  · split at h
    · cases h
    next stW heq =>
      cases h
      obtain ⟨erp, _, _, _, _⟩ := wireSpec_ok_effects heq
      simp only [St.rpSet_rp]
      rw [erp]
      simp only [St.newNode_rp, St.logCall_rp]
      exact SubK.set _ _ _
  · cases h
    exact SubK.rfl

theorem invert_brain_mask_cfgSame : CfgSame invert_functional_brain_mask_workflow := by
  intro nm s1 s2 h
  simp only [invert_functional_brain_mask_workflow] at h
  split at h
  · split at h
    · cases h
    next stW heq =>
      cases h
      obtain ⟨_, ecfg, _, _, _⟩ := wireSpec_ok_effects heq
      simp only [St.rpSet_cfg]
      rw [ecfg]
      simp
  · cases h
    rfl

theorem func_motion_correct_keyMono : KeyMono func_motion_correct_workflow := by
  intro nm s1 s2 h
  simp only [func_motion_correct_workflow] at h
  split at h
  · split at h
    · cases h
    next stW heq =>
      cases h
      obtain ⟨erp, _, _, _, _⟩ := wireSpec_ok_effects heq
      simp only [St.rpSet_rp]
      rw [erp]
      simp only [St.newNode_rp, St.logCall_rp]
      exact SubK.trans (SubK.set _ _ _) (SubK.set _ _ _)
  · cases h
    exact SubK.rfl

theorem func_motion_correct_cfgSame : CfgSame func_motion_correct_workflow := by
  intro nm s1 s2 h
  simp only [func_motion_correct_workflow] at h
  split at h
  · split at h
    · cases h
    next stW heq =>
      cases h
      obtain ⟨_, ecfg, _, _, _⟩ := wireSpec_ok_effects heq
      simp only [St.rpSet_cfg]
      rw [ecfg]
      simp
  · cases h
    rfl

theorem mean_functional_keyMono : KeyMono mean_functional_workflow := by
  intro nm s1 s2 h
  simp only [mean_functional_workflow] at h
  split at h
  · split at h
    · cases h
    next stW heq =>
      cases h
      obtain ⟨erp, _, _, _, _⟩ := wireSpec_ok_effects heq
      simp only [St.rpSet_rp]
      rw [erp]
      simp only [St.newNode_rp, St.logCall_rp]
      exact SubK.set _ _ _
  · cases h
    exact SubK.rfl

theorem mean_functional_cfgSame : CfgSame mean_functional_workflow := by
  intro nm s1 s2 h
  simp only [mean_functional_workflow] at h
  split at h
  · split at h
    · cases h
    next stW heq =>
      cases h
      obtain ⟨_, ecfg, _, _, _⟩ := wireSpec_ok_effects heq
      simp only [St.rpSet_cfg]
      rw [ecfg]
      simp
  · cases h
    rfl

theorem qap_mask_workflow_keyMono {reg reor : BF} (hreg : KeyMono reg) (hreor : KeyMono reor) :
    KeyMono (qap_mask_workflow reg reor) := by
  intro nm s1 s2 h
  unfold qap_mask_workflow at h
  have inner : ∀ t1 t2, stallCheckWhen (!t1.rp.hasKey "anat_reorient") reor nm t1
      (fun t => qap_mask_wire nm t) = .ok t2 → SubK t1.rp t2.rp := by
    intro t1 t2 ht
    refine stallCheckWhen_keyMono (fun a c hac => hreor nm a c hac) ?_ ht
    intro a c hac
    obtain ⟨erp, _, _⟩ := qap_mask_wire_effects hac
    rw [erp]
    exact SubK.trans (SubK.set _ _ _) (SubK.trans (SubK.set _ _ _) (SubK.set _ _ _))
  have outer := stallCheckWhen_keyMono (fun a c hac => hreg nm a c hac) inner h
  simpa using outer

theorem qap_mask_workflow_cfgSame {reg reor : BF} (hreg : CfgSame reg) (hreor : CfgSame reor) :
    CfgSame (qap_mask_workflow reg reor) := by
  intro nm s1 s2 h
  unfold qap_mask_workflow at h
  have inner : ∀ t1 t2, stallCheckWhen (!t1.rp.hasKey "anat_reorient") reor nm t1
      (fun t => qap_mask_wire nm t) = .ok t2 → t2.cfg = t1.cfg := by
    intro t1 t2 ht
    refine stallCheckWhen_cfgProp (P := fun c1 c2 => c2 = c1) (fun _ => rfl)
      (fun a c hac => hreor nm a c hac) ?_ ht
    intro a c hac
    exact (qap_mask_wire_effects hac).2.1
  have outer := stallCheckWhen_cfgProp (P := fun c1 c2 => c2 = c1) (fun _ => rfl)
    (fun a c hac => hreg nm a c hac) inner h
  simpa using outer

theorem calculate_artifacts_background_keyMono {maskB reor : BF}
    (hm : KeyMono maskB) (hreor : KeyMono reor) :
    KeyMono (calculate_artifacts_background maskB reor) := by
  intro nm s1 s2 h
  unfold calculate_artifacts_background at h
  have inner : ∀ t1 t2, stallCheckWhen (!t1.rp.hasKey "anat_reorient") reor nm t1
      (fun t => calculate_artifacts_background_wire nm t) = .ok t2 → SubK t1.rp t2.rp := by
    intro t1 t2 ht
    refine stallCheckWhen_keyMono (fun a c hac => hreor nm a c hac) ?_ ht
    intro a c hac
    obtain ⟨erp, _, _⟩ := calculate_artifacts_background_wire_effects hac
    rw [erp]
    exact SubK.trans (SubK.set _ _ _) (SubK.set _ _ _)
  have outer := stallCheckWhen_keyMono (fun a c hac => hm nm a c hac) inner h
  simpa using outer

theorem calculate_artifacts_background_cfgSame {maskB reor : BF}
    (hm : CfgSame maskB) (hreor : CfgSame reor) :
    CfgSame (calculate_artifacts_background maskB reor) := by
  intro nm s1 s2 h
  unfold calculate_artifacts_background at h
  have inner : ∀ t1 t2, stallCheckWhen (!t1.rp.hasKey "anat_reorient") reor nm t1
      (fun t => calculate_artifacts_background_wire nm t) = .ok t2 → t2.cfg = t1.cfg := by
    intro t1 t2 ht
    refine stallCheckWhen_cfgProp (P := fun c1 c2 => c2 = c1) (fun _ => rfl)
      (fun a c hac => hreor nm a c hac) ?_ ht
    intro a c hac
    exact (calculate_artifacts_background_wire_effects hac).2.1
  have outer := stallCheckWhen_cfgProp (P := fun c1 c2 => c2 = c1) (fun _ => rfl)
    (fun a c hac => hm nm a c hac) inner h
  simpa using outer

theorem calculate_temporal_std_keyMono : KeyMono calculate_temporal_std := by
  intro nm s1 s2 h
  obtain ⟨erp, _, _⟩ := calculate_temporal_std_effects h
  rw [erp]
  exact SubK.set _ _ _

theorem calculate_temporal_std_cfgSame : CfgSame calculate_temporal_std := by
  intro nm s1 s2 h
  exact (calculate_temporal_std_effects h).2.1

theorem calculate_sfs_workflow_keyMono {tstd : BF} (ht : KeyMono tstd) :
    KeyMono (calculate_sfs_workflow tstd) := by
  intro nm s1 s2 h
  unfold calculate_sfs_workflow at h
  have outer := stallCheckWhen_keyMono (fun a c hac => ht nm a c hac) ?_ h
  · simpa using outer
  · intro a c hac
    obtain ⟨erp, _, _⟩ := calculate_sfs_wire_effects hac
    rw [erp]
    exact SubK.trans (SubK.set _ _ _) (SubK.trans (SubK.set _ _ _) (SubK.set _ _ _))

theorem calculate_sfs_workflow_cfgSame {tstd : BF} (ht : CfgSame tstd) :
    CfgSame (calculate_sfs_workflow tstd) := by
  intro nm s1 s2 h
  unfold calculate_sfs_workflow at h
  have outer := stallCheckWhen_cfgProp (P := fun c1 c2 => c2 = c1) (fun _ => rfl)
    (fun a c hac => ht nm a c hac) ?_ h
  · simpa using outer
  · intro a c hac
    exact (calculate_sfs_wire_effects hac).2.1

theorem qap_anatomical_spatial_workflow_keyMono {artifacts seg : BF}
    (ha : KeyMono artifacts) (hs : KeyMono seg) (rep : Bool) :
    KeyMono (qap_anatomical_spatial_workflow artifacts seg rep) := by
  intro nm s1 s2 h
  simp only [qap_anatomical_spatial_workflow] at h
  split at h
  · cases h
  · have inner : ∀ t1 t2, stallCheckWhen (!t1.rp.hasKey "anat_gm_mask" ||
        !t1.rp.hasKey "anat_wm_mask" || !t1.rp.hasKey "anat_csf_mask") seg nm t1
        (fun t => qap_anatomical_spatial_wire nm t) = .ok t2 → SubK t1.rp t2.rp := by
      intro t1 t2 ht
      refine stallCheckWhen_keyMono (fun a c hac => hs nm a c hac) ?_ ht
      intro a c hac
      exact (qap_anatomical_spatial_wire_effects hac).1
    by_cases hez : (s1.logCall "qap_anatomical_spatial_workflow").cfg.hasKey "exclude_zeros"
    · rw [if_pos hez] at h
      have outer := stallCheckWhen_keyMono (fun a c hac => ha nm a c hac) inner h
      simpa using outer
    · rw [if_neg hez] at h
      have outer := stallCheckWhen_keyMono (fun a c hac => ha nm a c hac) inner h
      simpa using outer

theorem qap_anatomical_spatial_workflow_cfg {artifacts seg : BF}
    (ha : CfgSame artifacts) (hs : CfgSame seg) (rep : Bool) :
    ∀ nm s1 s2, qap_anatomical_spatial_workflow artifacts seg rep nm s1 = .ok s2 →
      s2.cfg = if s1.cfg.hasKey "exclude_zeros" then s1.cfg
        else s1.cfg.set "exclude_zeros" (.bool false) := by
  intro nm s1 s2 h
  simp only [qap_anatomical_spatial_workflow] at h
  split at h
  · cases h
  · have inner : ∀ t1 t2, stallCheckWhen (!t1.rp.hasKey "anat_gm_mask" ||
        !t1.rp.hasKey "anat_wm_mask" || !t1.rp.hasKey "anat_csf_mask") seg nm t1
        (fun t => qap_anatomical_spatial_wire nm t) = .ok t2 → t2.cfg = t1.cfg := by
      intro t1 t2 ht
      refine stallCheckWhen_cfgProp (P := fun c1 c2 => c2 = c1) (fun _ => rfl)
        (fun a c hac => hs nm a c hac) ?_ ht
      intro a c hac
      exact (qap_anatomical_spatial_wire_effects hac).2.1
    by_cases hez : (s1.logCall "qap_anatomical_spatial_workflow").cfg.hasKey "exclude_zeros"
    · rw [if_pos hez] at h
      have outer := stallCheckWhen_cfgProp (P := fun c1 c2 => c2 = c1) (fun _ => rfl)
        (fun a c hac => ha nm a c hac) inner h
      simp only [St.logCall_cfg] at outer hez
      rw [if_pos hez]
      simpa using outer
    · rw [if_neg hez] at h
      have outer := stallCheckWhen_cfgProp (P := fun c1 c2 => c2 = c1) (fun _ => rfl)
        (fun a c hac => ha nm a c hac) inner h
      simp only [St.cfgSet_cfg, St.logCall_cfg] at outer
      simp only [St.logCall_cfg] at hez
      rw [if_neg hez]
      exact outer

theorem qap_functional_workflow_keyMono {invert motion meanf sfs : BF}
    (hi : KeyMono invert) (hm : KeyMono motion) (hme : KeyMono meanf) (hsf : KeyMono sfs) :
    KeyMono (qap_functional_workflow invert motion meanf sfs) := by
  intro nm s1 s2 h
  unfold qap_functional_workflow at h
  have i4 : ∀ t1 t2, stallCheckWhen (!t1.rp.hasKey "func_SFS") sfs nm t1
      (fun t => qap_functional_wire nm t) = .ok t2 → SubK t1.rp t2.rp := by
    intro t1 t2 ht
    refine stallCheckWhen_keyMono (fun a c hac => hsf nm a c hac) ?_ ht
    intro a c hac
    exact (qap_functional_wire_effects hac).1
  have i3 : ∀ t1 t2, stallCheckWhen (!t1.rp.hasKey "func_mean") meanf nm t1
      (fun t => stallCheckWhen (!t.rp.hasKey "func_SFS") sfs nm t
        (fun t => qap_functional_wire nm t)) = .ok t2 → SubK t1.rp t2.rp := by
    intro t1 t2 ht
    exact stallCheckWhen_keyMono (fun a c hac => hme nm a c hac) i4 ht
  have i2 : ∀ t1 t2, stallCheckWhen (!t1.rp.hasKey "func_motion_correct" ||
      (!t1.rp.hasKey "func_coordinate_transformation" && !t1.rp.hasKey "mcflirt_rel_rms"))
      motion nm t1
      (fun t => stallCheckWhen (!t.rp.hasKey "func_mean") meanf nm t
        (fun t => stallCheckWhen (!t.rp.hasKey "func_SFS") sfs nm t
          (fun t => qap_functional_wire nm t))) = .ok t2 → SubK t1.rp t2.rp := by
    intro t1 t2 ht
    exact stallCheckWhen_keyMono (fun a c hac => hm nm a c hac) i3 ht
  have outer := stallCheckWhen_keyMono (fun a c hac => hi nm a c hac) i2 h
  simpa using outer

theorem qap_functional_workflow_cfg {invert motion meanf sfs : BF}
    (hi : CfgSame invert) (hm : CfgSame motion) (hme : CfgSame meanf) (hsf : CfgSame sfs) :
    ∀ nm s1 s2, qap_functional_workflow invert motion meanf sfs nm s1 = .ok s2 →
      s2.cfg = s1.cfg ∨ (s1.cfg.hasKey "ghost_direction" = false ∧
        s2.cfg = s1.cfg.set "ghost_direction" (.str "y")) := by
  intro nm s1 s2 h
  unfold qap_functional_workflow at h
  have hwire : ∀ t1 t2, qap_functional_wire nm t1 = .ok t2 →
      t2.cfg = t1.cfg ∨ (t1.cfg.hasKey "ghost_direction" = false ∧
        t2.cfg = t1.cfg.set "ghost_direction" (.str "y")) := by
    intro t1 t2 ht
    obtain ⟨_, _, hgt, hgf⟩ := qap_functional_wire_effects ht
    by_cases hg : t1.cfg.hasKey "ghost_direction"
    · exact Or.inl (hgt hg)
    · simp only [Bool.not_eq_true] at hg
      exact Or.inr ⟨hg, hgf hg⟩
  have P4 : ∀ t1 t2, stallCheckWhen (!t1.rp.hasKey "func_SFS") sfs nm t1
      (fun t => qap_functional_wire nm t) = .ok t2 →
      t2.cfg = t1.cfg ∨ (t1.cfg.hasKey "ghost_direction" = false ∧
        t2.cfg = t1.cfg.set "ghost_direction" (.str "y")) := by
    intro t1 t2 ht
    exact stallCheckWhen_cfgProp
      (P := fun c1 c2 => c2 = c1 ∨ (c1.hasKey "ghost_direction" = false ∧
        c2 = c1.set "ghost_direction" (.str "y")))
      (fun _ => Or.inl rfl) (fun a c hac => hsf nm a c hac)
      (fun a c hac => hwire a c hac) ht
  have P3 : ∀ t1 t2, stallCheckWhen (!t1.rp.hasKey "func_mean") meanf nm t1
      (fun t => stallCheckWhen (!t.rp.hasKey "func_SFS") sfs nm t
        (fun t => qap_functional_wire nm t)) = .ok t2 →
      t2.cfg = t1.cfg ∨ (t1.cfg.hasKey "ghost_direction" = false ∧
        t2.cfg = t1.cfg.set "ghost_direction" (.str "y")) := by
    intro t1 t2 ht
    exact stallCheckWhen_cfgProp
      (P := fun c1 c2 => c2 = c1 ∨ (c1.hasKey "ghost_direction" = false ∧
        c2 = c1.set "ghost_direction" (.str "y")))
      (fun _ => Or.inl rfl) (fun a c hac => hme nm a c hac) P4 ht
  have P2 : ∀ t1 t2, stallCheckWhen (!t1.rp.hasKey "func_motion_correct" ||
      (!t1.rp.hasKey "func_coordinate_transformation" && !t1.rp.hasKey "mcflirt_rel_rms"))
      motion nm t1
      (fun t => stallCheckWhen (!t.rp.hasKey "func_mean") meanf nm t
        (fun t => stallCheckWhen (!t.rp.hasKey "func_SFS") sfs nm t
          (fun t => qap_functional_wire nm t))) = .ok t2 →
      t2.cfg = t1.cfg ∨ (t1.cfg.hasKey "ghost_direction" = false ∧
        t2.cfg = t1.cfg.set "ghost_direction" (.str "y")) := by
    intro t1 t2 ht
    exact stallCheckWhen_cfgProp
      (P := fun c1 c2 => c2 = c1 ∨ (c1.hasKey "ghost_direction" = false ∧
        c2 = c1.set "ghost_direction" (.str "y")))
      (fun _ => Or.inl rfl) (fun a c hac => hm nm a c hac) P3 ht
  have outer := stallCheckWhen_cfgProp
    (P := fun c1 c2 => c2 = c1 ∨ (c1.hasKey "ghost_direction" = false ∧
      c2 = c1.set "ghost_direction" (.str "y")))
    (fun _ => Or.inl rfl) (fun a c hac => hi nm a c hac) P2 h
  simpa using outer

/-- The sink edge the materialization sweep creates for a pool entry: one per
key still bound to a Reference, wired from that reference's node and port into
the sink named after the key; none for Concrete entries. -/
def sinkEdge (rp : Pool) (k : String) : Option Edge :=
  match rp.lookup k with
  | some (.tup [n, p]) => some ⟨n, p, "datasink_" ++ k, k⟩
  | _ => none

theorem PyVal.unpack2_tup_ok {xs : List String} {n p : String}
    (h : (PyVal.tup xs).unpack2 = .ok (n, p)) : xs = [n, p] := by
  match xs, h with
  | [a, b], h =>
    simp only [PyVal.unpack2, Except.ok.injEq, Prod.mk.injEq] at h
    rw [h.1, h.2]

theorem datasinkSweep_chars {ks : List String} {st st' : St}
    (h : datasinkSweep st ks = .ok st') :
    st'.rp = st.rp ∧ st'.cfg = st.cfg ∧ st'.calls = st.calls ∧
      st'.created = st.created ++ ks.map (fun k => "datasink_" ++ k) ∧
      st'.wf.edges = st.wf.edges ++ ks.filterMap (sinkEdge st.rp) := by
  induction ks generalizing st with
  | nil =>
    have := okOk h
    subst this
    simp
  | cons k ks ih =>
    simp only [datasinkSweep] at h
    split at h
    next hl =>
      simp only [St.setParam_rp, St.newNode_rp] at hl
      obtain ⟨e1, e2, e3, e4, e5⟩ := ih h
      simp only [St.setParam_rp, St.newNode_rp] at e1 e5
      simp only [St.setParam_cfg, St.newNode_cfg] at e2
      simp only [St.setParam_calls, St.newNode_calls] at e3
      simp only [St.setParam_created] at e4
      refine ⟨e1, e2, e3, ?_, ?_⟩
      · rw [e4]
        simp [St.newNode]
      · rw [e5]
        simp [List.filterMap_cons, sinkEdge, hl]
    next v hl =>
      simp only [St.setParam_rp, St.newNode_rp] at hl
      split at h
      next hit =>
        split at h
        · cases h
        next n p hup =>
          obtain ⟨xs, rfl⟩ : ∃ xs, v = .tup xs := by
            cases v <;> simp [PyVal.isTup] at hit ⊢
          have hxs := PyVal.unpack2_tup_ok hup
          subst hxs
          obtain ⟨e1, e2, e3, e4, e5⟩ := ih h
          simp only [St.connect_rp, St.setParam_rp, St.newNode_rp] at e1 e5
          simp only [St.connect_cfg, St.setParam_cfg, St.newNode_cfg] at e2
          simp only [St.connect_calls, St.setParam_calls, St.newNode_calls] at e3
          simp only [St.connect_created, St.setParam_created] at e4
          refine ⟨e1, e2, e3, ?_, ?_⟩
          · rw [e4]
            simp [St.newNode]
          · rw [e5]
            simp [St.connect, List.filterMap_cons, sinkEdge, hl]
      next hit =>
        obtain ⟨e1, e2, e3, e4, e5⟩ := ih h
        simp only [St.setParam_rp, St.newNode_rp] at e1 e5
        simp only [St.setParam_cfg, St.newNode_cfg] at e2
        simp only [St.setParam_calls, St.newNode_calls] at e3
        simp only [St.setParam_created] at e4
        refine ⟨e1, e2, e3, ?_, ?_⟩
        · rw [e4]
          simp [St.newNode]
        · rw [e5]
          have hnt : sinkEdge st.rp k = none := by
            cases v
            case tup => simp [PyVal.isTup] at hit
            all_goals simp [sinkEdge, hl]
          simp [List.filterMap_cons, hnt]

/-- A concrete state whose pool already holds both inputs `qap_mask_workflow`
needs, used to instantiate the universally quantified claims. -/
def exSt : St :=
  { wf := ⟨[]⟩,
    rp := [("anat_reorient", .str "/a.nii.gz"), ("anat_linear_xfm", .str "/x.aff12.1D")],
    cfg := [], created := [], params := [], calls := [] }

/-- The state `qap_mask_workflow` produces from `exSt`. -/
def exRes : St :=
  match qap_mask_workflowM "_" exSt with
  | .ok s => s
  | .error _ => exSt

/-- **C6**: for every builder call that returns, the key set of the resource
pool after the call is a superset of the key set before it — no builder of
the program (the six prerequisite builders modelled from the spec and the
seven builders of src/qap/qap_workflows.py, the latter instantiated with
their actual prerequisite builders) ever deletes a resource, so the pool
grows monotonically during one resolution pass. -/
theorem c6_pool_monotonic_growth :
    KeyMono anatomical_reorient_workflow ∧
    KeyMono afni_anatomical_linear_registration ∧
    KeyMono afni_segmentation_workflow ∧
    KeyMono invert_functional_brain_mask_workflow ∧
    KeyMono func_motion_correct_workflow ∧
    KeyMono mean_functional_workflow ∧
    KeyMono calculate_temporal_std ∧
    (∀ data_type, KeyMono (qap_gather_header_info data_type)) ∧
    KeyMono qap_mask_workflowM ∧
    KeyMono calculate_artifacts_backgroundM ∧
    KeyMono calculate_sfs_workflowM ∧
    KeyMono qap_anatomical_spatial_workflowM ∧
    KeyMono qap_functional_workflowM := by
  have hmask : KeyMono qap_mask_workflowM :=
    qap_mask_workflow_keyMono afni_registration_keyMono anatomical_reorient_keyMono
  have hcab : KeyMono calculate_artifacts_backgroundM :=
    calculate_artifacts_background_keyMono hmask anatomical_reorient_keyMono
  have hsfs : KeyMono calculate_sfs_workflowM :=
    calculate_sfs_workflow_keyMono calculate_temporal_std_keyMono
  refine ⟨anatomical_reorient_keyMono, afni_registration_keyMono, afni_segmentation_keyMono,
    invert_brain_mask_keyMono, func_motion_correct_keyMono, mean_functional_keyMono,
    calculate_temporal_std_keyMono, ?_, hmask, hcab, hsfs, ?_, ?_⟩
  · intro data_type nm s1 s2 h
    obtain ⟨⟨j, hj⟩, _, _⟩ := qap_gather_header_info_effects h
    rw [hj]
    exact SubK.set _ _ _
  · exact qap_anatomical_spatial_workflow_keyMono hcab afni_segmentation_keyMono false
  · exact qap_functional_workflow_keyMono invert_brain_mask_keyMono
      func_motion_correct_keyMono mean_functional_keyMono hsfs

/-- Witness for C6: applied to the concrete run of `qap_mask_workflow` on
`exSt`, whose pool holds `anat_reorient` before the call, the key survives
into the output pool. -/
theorem c6_pool_monotonic_growth_witness :
    Pool.hasKey exRes.rp "anat_reorient" = true :=
  c6_pool_monotonic_growth.2.2.2.2.2.2.2.2.1 "_" exSt exRes (by rfl)
    "anat_reorient" (by decide)

/-- A config holding only the validated template setting, with no
`exclude_zeros` key, used to exhibit the config mutation. -/
def c7St : St :=
  { wf := ⟨[]⟩, rp := [], cfg := [("anatomical_template", .str "/template.nii.gz")],
    created := [], params := [], calls := [] }

/-- Counterexample to **C7** (the config mapping is immutable for the
duration of one resolution pass): calling `qap_anatomical_spatial_workflow`
with a config that lacks `exclude_zeros` returns — before stalling on its
missing prerequisites — a config into which the builder has written
`exclude_zeros = False` (src lines 640-641), so the config observed by later
builders in the pass is not the config the caller supplied. -/
theorem c7_config_mutation_counterexample :
    (match qap_anatomical_spatial_workflowM "_" c7St with
     | .ok s => s.cfg.lookup "exclude_zeros"
     | .error _ => none) = some (.bool false)
    ∧ c7St.cfg.lookup "exclude_zeros" = none := by
  exact ⟨by decide, by decide⟩

/-- **C7**, amended: no builder removes or rewrites an existing config key,
and the only additions are three silent defaults, each written only when its
key is absent: `qap_anatomical_spatial_workflow` inserts
`exclude_zeros = False`, `qap_functional_workflow` inserts
`ghost_direction = 'y'` (only when the call proceeds past its prerequisite
dispatches), and `run_nipype_workflow` inserts `num_processors = 1` when it
is about to run the graph; every other builder of the program returns the
config exactly as supplied. -/
theorem c7_config_frame_amended :
    CfgSame anatomical_reorient_workflow ∧
    CfgSame afni_anatomical_linear_registration ∧
    CfgSame afni_segmentation_workflow ∧
    CfgSame invert_functional_brain_mask_workflow ∧
    CfgSame func_motion_correct_workflow ∧
    CfgSame mean_functional_workflow ∧
    CfgSame calculate_temporal_std ∧
    (∀ data_type, CfgSame (qap_gather_header_info data_type)) ∧
    CfgSame qap_mask_workflowM ∧
    CfgSame calculate_artifacts_backgroundM ∧
    CfgSame calculate_sfs_workflowM ∧
    (∀ nm s1 s2, qap_anatomical_spatial_workflowM nm s1 = .ok s2 →
      s2.cfg = if s1.cfg.hasKey "exclude_zeros" then s1.cfg
        else s1.cfg.set "exclude_zeros" (.bool false)) ∧
    (∀ nm s1 s2, qap_functional_workflowM nm s1 = .ok s2 →
      s2.cfg = s1.cfg ∨ (s1.cfg.hasKey "ghost_direction" = false ∧
        s2.cfg = s1.cfg.set "ghost_direction" (.str "y"))) ∧
    (∀ builder rp cfg0 run s', (∀ nm a b2, builder nm a = .ok b2 → b2.cfg = a.cfg) →
      run_nipype_workflow builder rp cfg0 run = .ok s' →
      s'.cfg = cfg0 ∨ (cfg0.hasKey "num_processors" = false ∧
        s'.cfg = cfg0.set "num_processors" (.nat 1))) := by
  have hmask : CfgSame qap_mask_workflowM :=
    qap_mask_workflow_cfgSame afni_registration_cfgSame anatomical_reorient_cfgSame
  have hcab : CfgSame calculate_artifacts_backgroundM :=
    calculate_artifacts_background_cfgSame hmask anatomical_reorient_cfgSame
  have hsfs : CfgSame calculate_sfs_workflowM :=
    calculate_sfs_workflow_cfgSame calculate_temporal_std_cfgSame
  refine ⟨anatomical_reorient_cfgSame, afni_registration_cfgSame, afni_segmentation_cfgSame,
    invert_brain_mask_cfgSame, func_motion_correct_cfgSame, mean_functional_cfgSame,
    calculate_temporal_std_cfgSame, ?_, hmask, hcab, hsfs, ?_, ?_, ?_⟩
  · intro data_type nm s1 s2 h
    exact (qap_gather_header_info_effects h).2.1
  · exact qap_anatomical_spatial_workflow_cfg hcab afni_segmentation_cfgSame false
  · exact qap_functional_workflow_cfg invert_brain_mask_cfgSame func_motion_correct_cfgSame
      mean_functional_cfgSame hsfs
  · intro builder rp cfg0 run s' hb h
    unfold run_nipype_workflow at h
    obtain ⟨stB, hB, h⟩ := bindOkE h
    obtain ⟨stS, hS, h⟩ := bindOkE h
    have hc1 : (if cfg0.isEmpty then ([] : Pool) else cfg0) = cfg0 := by
      cases cfg0 <;> simp
    have hBc : stB.cfg = cfg0 := by
      have := hb _ _ _ hB
      rw [this]
      exact hc1
    have hSc : stS.cfg = cfg0 := by
      rw [(datasinkSweep_chars hS).2.1, hBc]
    by_cases hr : run
    · rw [if_pos hr] at h
      have := okOk h
      subst this
      by_cases hk : stS.cfg.hasKey "num_processors"
      · rw [if_pos hk]
        exact Or.inl hSc
      · rw [if_neg hk]
        simp only [Bool.not_eq_true] at hk
        rw [hSc] at hk
        exact Or.inr ⟨hk, by rw [St.cfgSet_cfg, hSc]⟩
    · rw [if_neg hr] at h
      have := okOk h
      subst this
      exact Or.inl hSc

/-- Witness for the amended C7: the concrete `qap_mask_workflow` run on
`exSt` returns its config untouched. -/
theorem c7_config_frame_amended_witness : exRes.cfg = exSt.cfg :=
  c7_config_frame_amended.2.2.2.2.2.2.2.2.1 "_" exSt exRes (by rfl)

/-- **C3**: requesting a resource already present in the pool never invokes
its builder and never mutates the pool: every prerequisite dispatch tests
membership of its target key(s) first, and when they are present the builder
is equal — for arbitrary prerequisite builder arguments, which are therefore
never invoked — to its wiring phase applied to the unmutated input pool
(the dispatch contributes nothing but the call-log entry). -/
theorem c3_present_resource_short_circuits :
    (∀ reg reor nm st, st.rp.hasKey "anat_linear_xfm" = true →
      st.rp.hasKey "anat_reorient" = true →
      qap_mask_workflow reg reor nm st = qap_mask_wire nm (st.logCall "qap_mask_workflow")) ∧
    (∀ maskB reor nm st, st.rp.hasKey "anat_qap_head_mask" = true →
      st.rp.hasKey "anat_reorient" = true →
      calculate_artifacts_background maskB reor nm st =
        calculate_artifacts_background_wire nm
          (st.logCall "calculate_artifacts_background")) ∧
    (∀ tstd nm st, st.rp.hasKey "func_temporal_std_map" = true →
      calculate_sfs_workflow tstd nm st =
        calculate_sfs_wire nm (st.logCall "calculate_sfs_workflow")) ∧
    (∀ artifacts seg rep nm st, st.rp.hasKey "anat_fav_artifacts_background" = true →
      st.rp.hasKey "anat_gm_mask" = true → st.rp.hasKey "anat_wm_mask" = true →
      st.rp.hasKey "anat_csf_mask" = true → st.cfg.hasKey "anatomical_template" = true →
      qap_anatomical_spatial_workflow artifacts seg rep nm st =
        qap_anatomical_spatial_wire nm
          (if st.cfg.hasKey "exclude_zeros" then st.logCall "qap_anatomical_spatial_workflow"
           else (st.logCall "qap_anatomical_spatial_workflow").cfgSet "exclude_zeros"
             (.bool false))) ∧
    (∀ invert motion meanf sfs nm st, st.rp.hasKey "func_inverted_brain_mask" = true →
      st.rp.hasKey "func_motion_correct" = true →
      (st.rp.hasKey "func_coordinate_transformation" = true ∨
        st.rp.hasKey "mcflirt_rel_rms" = true) →
      st.rp.hasKey "func_mean" = true → st.rp.hasKey "func_SFS" = true →
      qap_functional_workflow invert motion meanf sfs nm st =
        qap_functional_wire nm (st.logCall "qap_functional_workflow")) := by
  refine ⟨?_, ?_, ?_, ?_, ?_⟩
  · intro reg reor nm st h1 h2
    simp [qap_mask_workflow, stallCheckWhen, h1, h2]
  · intro maskB reor nm st h1 h2
    simp [calculate_artifacts_background, stallCheckWhen, h1, h2]
  · intro tstd nm st h1
    simp [calculate_sfs_workflow, stallCheckWhen, h1]
  · intro artifacts seg rep nm st h1 h2 h3 h4 h5
    have hck : check_config_settings (st.logCall "qap_anatomical_spatial_workflow")
        "anatomical_template" = .ok () := by
      simp [check_config_settings, h5]
    by_cases hez : st.cfg.hasKey "exclude_zeros"
    · simp [qap_anatomical_spatial_workflow, hck, hez, stallCheckWhen, h1, h2, h3, h4]
    · simp [qap_anatomical_spatial_workflow, hck, hez, stallCheckWhen, h1, h2, h3, h4]
  · intro invert motion meanf sfs nm st h1 h2 h3 h4 h5
    rcases h3 with h3 | h3 <;>
      simp [qap_functional_workflow, stallCheckWhen, h1, h2, h3, h4, h5]

/-- Witness for C3: on the concrete state `exSt`, whose pool already binds
both of `qap_mask_workflow`'s prerequisites, the builder instantiated with
its actual prerequisite builders equals its wiring phase on the unmutated
pool. -/
theorem c3_present_resource_short_circuits_witness :
    qap_mask_workflow afni_anatomical_linear_registration anatomical_reorient_workflow
      "_" exSt = qap_mask_wire "_" (exSt.logCall "qap_mask_workflow") :=
  c3_present_resource_short_circuits.1 afni_anatomical_linear_registration
    anatomical_reorient_workflow "_" exSt (by decide) (by decide)

theorem qmw_stall_xfm {reg reor : BF} {nm : String} {st st1 : St}
    (h1 : st.rp.hasKey "anat_linear_xfm" = false)
    (hb : reg nm (st.logCall "qap_mask_workflow") = .ok st1)
    (hd : st1.rp.dictEq st.rp = true) :
    qap_mask_workflow reg reor nm st = .ok st1 := by
  unfold qap_mask_workflow
  exact stallCheckWhen_stall (by simp [h1]) hb hd

theorem qmw_stall_reorient {reg reor : BF} {nm : String} {st st1 : St}
    (h1 : st.rp.hasKey "anat_linear_xfm" = true)
    (h2 : st.rp.hasKey "anat_reorient" = false)
    (hb : reor nm (st.logCall "qap_mask_workflow") = .ok st1)
    (hd : st1.rp.dictEq st.rp = true) :
    qap_mask_workflow reg reor nm st = .ok st1 := by
  unfold qap_mask_workflow
  rw [stallCheckWhen_skip (by simp [h1])]
  exact stallCheckWhen_stall (by simp [h2]) hb hd

theorem cab_stall_mask {maskB reor : BF} {nm : String} {st st1 : St}
    (h1 : st.rp.hasKey "anat_qap_head_mask" = false)
    (hb : maskB nm (st.logCall "calculate_artifacts_background") = .ok st1)
    (hd : st1.rp.dictEq st.rp = true) :
    calculate_artifacts_background maskB reor nm st = .ok st1 := by
  unfold calculate_artifacts_background
  exact stallCheckWhen_stall (by simp [h1]) hb hd

theorem cab_stall_reorient {maskB reor : BF} {nm : String} {st st1 : St}
    (h1 : st.rp.hasKey "anat_qap_head_mask" = true)
    (h2 : st.rp.hasKey "anat_reorient" = false)
    (hb : reor nm (st.logCall "calculate_artifacts_background") = .ok st1)
    (hd : st1.rp.dictEq st.rp = true) :
    calculate_artifacts_background maskB reor nm st = .ok st1 := by
  unfold calculate_artifacts_background
  rw [stallCheckWhen_skip (by simp [h1])]
  exact stallCheckWhen_stall (by simp [h2]) hb hd

theorem cabM_stall {nm : String} {X : St}
    (hH : X.rp.hasKey "anat_qap_head_mask" = false)
    (hX : X.rp.hasKey "anat_linear_xfm" = false)
    (hS : X.rp.hasKey "anatomical_scan" = false) :
    calculate_artifacts_backgroundM nm X =
      .ok (((X.logCall "calculate_artifacts_background").logCall
        "qap_mask_workflow").logCall "afni_anatomical_linear_registration") := by
  have hreg : ∀ Y : St, Y.rp.hasKey "anatomical_scan" = false →
      afni_anatomical_linear_registration nm Y =
        .ok (Y.logCall "afni_anatomical_linear_registration") := by
    intro Y hY
    simp [afni_anatomical_linear_registration, hY]
  have hqmw : qap_mask_workflowM nm (X.logCall "calculate_artifacts_background") =
      .ok (((X.logCall "calculate_artifacts_background").logCall
        "qap_mask_workflow").logCall "afni_anatomical_linear_registration") := by
    unfold qap_mask_workflowM
    exact qmw_stall_xfm hX (hreg _ hS) (Pool.dictEq_refl _)
  unfold calculate_artifacts_backgroundM
  exact cab_stall_mask hH hqmw (Pool.dictEq_refl _)

/-- A stalled-without-error outcome: the builder returns successfully with
the workflow untouched and a pool structurally equal to its input pool. -/
def StallsClean (b : BF) (nm : String) (st : St) : Prop :=
  match b nm st with
  | .ok s => s.wf = st.wf ∧ s.rp.dictEq st.rp = true
  | .error _ => False

theorem spatialM_chain_stall {nm : String} {st : St}
    (hT : st.cfg.hasKey "anatomical_template" = true)
    (hF : st.rp.hasKey "anat_fav_artifacts_background" = false)
    (hH : st.rp.hasKey "anat_qap_head_mask" = false)
    (hX : st.rp.hasKey "anat_linear_xfm" = false)
    (hS : st.rp.hasKey "anatomical_scan" = false) :
    ∃ st', qap_anatomical_spatial_workflowM nm st = .ok st' ∧
      st'.wf = st.wf ∧ st'.rp = st.rp := by
  have hck : check_config_settings (st.logCall "qap_anatomical_spatial_workflow")
      "anatomical_template" = .ok () := by
    simp [check_config_settings, hT]
  by_cases hez : st.cfg.hasKey "exclude_zeros"
  · refine ⟨((((st.logCall "qap_anatomical_spatial_workflow").logCall
      "calculate_artifacts_background").logCall "qap_mask_workflow").logCall
      "afni_anatomical_linear_registration"), ?_, by simp, by simp⟩
    simp only [qap_anatomical_spatial_workflowM, qap_anatomical_spatial_workflow, hck,
      St.logCall_cfg, hez, if_true]
    exact stallCheckWhen_stall (by simp [hF])
      (cabM_stall hH hX hS) (Pool.dictEq_refl _)
  · simp only [Bool.not_eq_true] at hez
    refine ⟨(((((st.logCall "qap_anatomical_spatial_workflow").cfgSet "exclude_zeros"
      (.bool false)).logCall "calculate_artifacts_background").logCall
      "qap_mask_workflow").logCall "afni_anatomical_linear_registration"), ?_, by simp, by simp⟩
    simp only [qap_anatomical_spatial_workflowM, qap_anatomical_spatial_workflow, hck,
      St.logCall_cfg, hez, Bool.false_eq_true, if_false]
    exact stallCheckWhen_stall (by simp [hF])
      (cabM_stall hH hX hS) (Pool.dictEq_refl _)

/-- **C1**: every prerequisite dispatch snapshots the pool before invoking
the prerequisite builder and, whenever the pool the prerequisite returns is
structurally equal to the snapshot, the enclosing builder returns that state
immediately (wiring no nodes of its own and leaving the pool structurally
equal to its input pool) — shown for both dispatch blocks of
`qap_mask_workflow` and of `calculate_artifacts_background`, for arbitrary
prerequisite builders; and the stall of a builder whose sole required raw
input (`anatomical_scan`) is absent propagates transitively through
`afni_anatomical_linear_registration`, `qap_mask_workflow` and
`calculate_artifacts_background` up to `qap_anatomical_spatial_workflow`,
which returns, without raising an error, a workflow and pool unchanged. -/
theorem c1_stall_propagation :
    (∀ (reg reor : BF) (nm : String) (st st1 : St),
      st.rp.hasKey "anat_linear_xfm" = false →
      reg nm (st.logCall "qap_mask_workflow") = .ok st1 →
      st1.rp.dictEq st.rp = true →
      qap_mask_workflow reg reor nm st = .ok st1) ∧
    (∀ (reg reor : BF) (nm : String) (st st1 : St),
      st.rp.hasKey "anat_linear_xfm" = true →
      st.rp.hasKey "anat_reorient" = false →
      reor nm (st.logCall "qap_mask_workflow") = .ok st1 →
      st1.rp.dictEq st.rp = true →
      qap_mask_workflow reg reor nm st = .ok st1) ∧
    (∀ (maskB reor : BF) (nm : String) (st st1 : St),
      st.rp.hasKey "anat_qap_head_mask" = false →
      maskB nm (st.logCall "calculate_artifacts_background") = .ok st1 →
      st1.rp.dictEq st.rp = true →
      calculate_artifacts_background maskB reor nm st = .ok st1) ∧
    (∀ (maskB reor : BF) (nm : String) (st st1 : St),
      st.rp.hasKey "anat_qap_head_mask" = true →
      st.rp.hasKey "anat_reorient" = false →
      reor nm (st.logCall "calculate_artifacts_background") = .ok st1 →
      st1.rp.dictEq st.rp = true →
      calculate_artifacts_background maskB reor nm st = .ok st1) ∧
    (∀ (nm : String) (st : St),
      st.cfg.hasKey "anatomical_template" = true →
      st.rp.hasKey "anat_fav_artifacts_background" = false →
      st.rp.hasKey "anat_qap_head_mask" = false →
      st.rp.hasKey "anat_linear_xfm" = false →
      st.rp.hasKey "anatomical_scan" = false →
      StallsClean qap_anatomical_spatial_workflowM nm st) := by
  refine ⟨fun reg reor nm st st1 => qmw_stall_xfm,
    fun reg reor nm st st1 => qmw_stall_reorient,
    fun maskB reor nm st st1 => cab_stall_mask,
    fun maskB reor nm st st1 => cab_stall_reorient, ?_⟩
  intro nm st hT hF hH hX hS
  obtain ⟨st', heq, hwf, hrp⟩ := spatialM_chain_stall hT hF hH hX hS
  unfold StallsClean
  rw [heq]
  exact ⟨hwf, by rw [hrp]; exact Pool.dictEq_refl _⟩

/-- Witness for C1: on the concrete state `c7St` — a pool with no raw inputs
at all and a config holding only the template — the whole prerequisite chain
stalls cleanly: `qap_anatomical_spatial_workflow` returns without error, with
the workflow untouched and the pool structurally equal to its input. -/
theorem c1_stall_propagation_witness :
    StallsClean qap_anatomical_spatial_workflowM "_" c7St :=
  c1_stall_propagation.2.2.2.2 "_" c7St (by decide) (by decide) (by decide)
    (by decide) (by decide)

instance {α β : Type} [DecidableEq α] [DecidableEq β] : DecidableEq (Except α β) := fun a b =>
  match a, b with
  | .ok x, .ok y =>
    if h : x = y then .isTrue (by rw [h]) else .isFalse (by simp [h])
  | .error x, .error y =>
    if h : x = y then .isTrue (by rw [h]) else .isFalse (by simp [h])
  | .ok _, .error _ => .isFalse (by simp)
  | .error _, .ok _ => .isFalse (by simp)

/-- The §8 scenario's starting pool: only the reoriented anatomical scan. -/
def c5StallSt : St :=
  { wf := ⟨[]⟩, rp := [("anat_reorient", .str "/a.nii.gz")], cfg := [],
    created := [], params := [], calls := [] }

/-- **C5**: from the pool `{"anat_reorient": Concrete("/a.nii.gz")}`, a
request for `anat_qap_head_mask` invokes the registration prerequisite
builder (modelled from the spec, since `anatomical_preproc` is not under
src/), and because `anat_linear_xfm` is unobtainable the original pool and
workflow are returned unchanged (only the call log grows); once
`anat_linear_xfm` is also supplied as a Concrete entry (`exSt`), resolution
succeeds and adds exactly the three Reference entries `anat_qap_head_mask`,
`anat_whole_head_mask` and `anat_skull_only_mask`, each pointing at a node
newly created by this call (the input state had created none). -/
theorem c5_head_mask_scenario :
    (qap_mask_workflowM "_" c5StallSt =
      .ok { c5StallSt with
        calls := ["qap_mask_workflow", "afni_anatomical_linear_registration"] }) ∧
    ((qap_mask_workflowM "_" exSt).toOption.map (fun s => s.rp.keys) =
      some ["anat_reorient", "anat_linear_xfm", "anat_qap_head_mask",
        "anat_whole_head_mask", "anat_skull_only_mask"]) ∧
    ((qap_mask_workflowM "_" exSt).toOption.map
      (fun s => (s.rp.lookup "anat_qap_head_mask", s.rp.lookup "anat_whole_head_mask",
        s.rp.lookup "anat_skull_only_mask")) =
      some (some (.tup ["qap_headmask_combine_masks_", "out_file"]),
        some (.tup ["qap_headmask_scipy_fill_", "out_file"]),
        some (.tup ["qap_headmask_subtract_masks_", "out_file"]))) ∧
    ((qap_mask_workflowM "_" exSt).toOption.map
      (fun s => (s.created.contains "qap_headmask_combine_masks_",
        s.created.contains "qap_headmask_scipy_fill_",
        s.created.contains "qap_headmask_subtract_masks_")) = some (true, true, true)) ∧
    exSt.created = [] := by
  exact ⟨by decide, by decide, by decide, by decide, by decide⟩

/-- A fully populated pool for `qap_anatomical_spatial_workflow` whose
`anat_wm_mask` entry is the given value, with Reference and Concrete values
elsewhere; all prerequisite dispatches are satisfied. -/
def c2Pool (wm : PyVal) : Pool :=
  [("starter", .tup ["s0", "out_file"]),
   ("anat_reorient", .str "/ar.nii.gz"),
   ("anat_qap_head_mask", .tup ["hm", "out_file"]),
   ("anat_qap_bg_head_mask", .tup ["bg", "out_file"]),
   ("anat_whole_head_mask", .tup ["wh", "out_file"]),
   ("anat_skull_only_mask", .tup ["sk", "out_file"]),
   ("anat_gm_mask", .str "/gm.nii.gz"),
   ("anat_wm_mask", wm),
   ("anat_csf_mask", .str "/csf.nii.gz"),
   ("anat_fav_artifacts_background", .tup ["fav", "fav_bg_file"])]

/-- A config satisfying every setting `qap_anatomical_spatial_workflow`
reads. -/
def c2Cfg : Pool :=
  [("anatomical_template", .str "/t.nii.gz"), ("subject_id", .str "sub1"),
   ("session_id", .str "ses1"), ("scan_id", .str "scn1"), ("run_name", .str "run1"),
   ("output_directory", .str "/out"), ("site_name", .str "site1")]

def c2St (wm : PyVal) : St :=
  { wf := ⟨[]⟩, rp := c2Pool wm, cfg := c2Cfg, created := [], params := [], calls := [] }

/-- Counterexample to **C8** (a mis-shaped Reference always fails fast and is
never silently coerced): at the `len(...) == 2` binding site for
`anat_wm_mask` (src lines 733-738), the mis-shaped three-component Reference
`("n", "p", "q")` raises no structural error at all — it is silently bound
as a static parameter of the spatial unit, and the run completes. -/
theorem c8_malformed_wiring_counterexample :
    (match qap_anatomical_spatial_workflowM "_" (c2St (.tup ["n", "p", "q"])) with
     | .ok s =>
       (s.params.contains
          ("qap_anatomical_spatial_", "anatomical_wm_mask", PyVal.tup ["n", "p", "q"]),
        s.wf.edges.any fun e => e.dstPort == "anatomical_wm_mask")
     | .error _ => (false, true)) = (true, false) := by
  decide

/-- **C8**, amended: a tuple of the wrong arity bound to a new unit's input
fails fast with an unpacking `ValueError` at the binding sites that test
`isinstance(value, tuple)`, but at the sites that test `len(value) == 2` it
is silently coerced into a static parameter instead of raising. -/
theorem c8_malformed_wiring_amended :
    ∀ st k u i xs, st.rp.lookup k = some (.tup xs) → xs.length ≠ 2 →
      wireIsinstance st k u i = .error (.valueError "unpack") ∧
      wireLen2 st k u i = .ok (st.setParam u i (.tup xs)) := by
  intro st k u i xs h hlen
  constructor
  · rcases xs with _ | ⟨a, _ | ⟨b, _ | ⟨c, t⟩⟩⟩
    · simp [wireIsinstance, h, PyVal.isTup]
    · simp [wireIsinstance, h, PyVal.isTup]
    · simp at hlen
    · simp [wireIsinstance, h, PyVal.isTup]
  · simp [wireLen2, h, PyVal.pyLen, hlen]

/-- Witness for the amended C8: the three-component tuple bound to
`anat_wm_mask` raises at an isinstance site and is silently coerced at a
len==2 site. -/
theorem c8_malformed_wiring_amended_witness :
    wireIsinstance (c2St (.tup ["n", "p", "q"])) "anat_wm_mask" "u2" "in2" =
      .error (.valueError "unpack") ∧
    wireLen2 (c2St (.tup ["n", "p", "q"])) "anat_wm_mask" "u2" "in2" =
      .ok ((c2St (.tup ["n", "p", "q"])).setParam "u2" "in2" (.tup ["n", "p", "q"])) :=
  c8_malformed_wiring_amended (c2St (.tup ["n", "p", "q"])) "anat_wm_mask" "u2" "in2"
    ["n", "p", "q"] (by decide) (by decide)

theorem ebind_ok {α β : Type} (a : α) (f : α → Except PyErr β) :
    Except.bind (Except.ok a) f = f a := rfl

theorem ebind_error {α β : Type} (e : PyErr) (f : α → Except PyErr β) :
    Except.bind (Except.error e : Except PyErr α) f = Except.error e := rfl

theorem hasKey_some {p : Pool} {k : String} (h : p.hasKey k = true) :
    ∃ v, p.lookup k = some v := by
  unfold Pool.hasKey at h
  cases hl : p.lookup k with
  | some v => exact ⟨v, rfl⟩
  | none => rw [hl] at h; cases h

theorem hasKey_none {p : Pool} {k : String} (h : p.hasKey k = false) :
    p.lookup k = none := by
  unfold Pool.hasKey at h
  cases hl : p.lookup k with
  | some v => rw [hl] at h; cases h
  | none => rfl

/-- When every prerequisite tested by `qap_anatomical_spatial_workflow` is
already in the pool and the template setting is present, the builder equals
its wiring phase on the logged, `exclude_zeros`-defaulted state. -/
theorem spatialM_eq_wire {nm : String} {st : St}
    (h1 : st.rp.hasKey "anat_fav_artifacts_background" = true)
    (h2 : st.rp.hasKey "anat_gm_mask" = true)
    (h3 : st.rp.hasKey "anat_wm_mask" = true)
    (h4 : st.rp.hasKey "anat_csf_mask" = true)
    (h5 : st.cfg.hasKey "anatomical_template" = true) :
    qap_anatomical_spatial_workflowM nm st =
      qap_anatomical_spatial_wire nm
        (if st.cfg.hasKey "exclude_zeros" then st.logCall "qap_anatomical_spatial_workflow"
         else (st.logCall "qap_anatomical_spatial_workflow").cfgSet "exclude_zeros"
           (.bool false)) := by
  have hck : check_config_settings (st.logCall "qap_anatomical_spatial_workflow")
      "anatomical_template" = .ok () := by
    simp [check_config_settings, h5]
  by_cases hez : st.cfg.hasKey "exclude_zeros" <;>
    simp [qap_anatomical_spatial_workflowM, qap_anatomical_spatial_workflow, hck, hez,
      stallCheckWhen, h1, h2, h3, h4]

theorem spatial_wire_starter_absent {nm : String} {st : St}
    (c1 : st.cfg.hasKey "subject_id" = true)
    (c2 : st.cfg.hasKey "session_id" = true)
    (c3 : st.cfg.hasKey "scan_id" = true)
    (c4 : st.cfg.hasKey "run_name" = true)
    (c5 : st.cfg.hasKey "exclude_zeros" = true)
    (c6 : st.cfg.hasKey "output_directory" = true)
    (h7 : st.rp.hasKey "starter" = false) :
    qap_anatomical_spatial_wire nm st = .error (.keyError "starter") := by
  obtain ⟨v1, hv1⟩ := hasKey_some c1
  obtain ⟨v2, hv2⟩ := hasKey_some c2
  obtain ⟨v3, hv3⟩ := hasKey_some c3
  obtain ⟨v4, hv4⟩ := hasKey_some c4
  obtain ⟨v5, hv5⟩ := hasKey_some c5
  obtain ⟨v6, hv6⟩ := hasKey_some c6
  have h7n := hasKey_none h7
  simp [qap_anatomical_spatial_wire, St.cfgGet, St.rpGet, hv1, hv2, hv3, hv4, hv5, hv6,
    h7n, ebind_ok, ebind_error]

theorem spatial_wire_starter_badstr {nm : String} {st : St} {s : String}
    (c1 : st.cfg.hasKey "subject_id" = true)
    (c2 : st.cfg.hasKey "session_id" = true)
    (c3 : st.cfg.hasKey "scan_id" = true)
    (c4 : st.cfg.hasKey "run_name" = true)
    (c5 : st.cfg.hasKey "exclude_zeros" = true)
    (c6 : st.cfg.hasKey "output_directory" = true)
    (h7 : st.rp.lookup "starter" = some (.str s))
    (hlen : s.length ≠ 2) :
    qap_anatomical_spatial_wire nm st = .error (.valueError "unpack") := by
  obtain ⟨v1, hv1⟩ := hasKey_some c1
  obtain ⟨v2, hv2⟩ := hasKey_some c2
  obtain ⟨v3, hv3⟩ := hasKey_some c3
  obtain ⟨v4, hv4⟩ := hasKey_some c4
  obtain ⟨v5, hv5⟩ := hasKey_some c5
  obtain ⟨v6, hv6⟩ := hasKey_some c6
  have hup : (PyVal.str s).unpack2 = .error (.valueError "unpack") := by
    rcases hsd : s.data with _ | ⟨a, _ | ⟨b, _ | ⟨c, t⟩⟩⟩
    · simp [PyVal.unpack2, hsd]
    · simp [PyVal.unpack2, hsd]
    · exact absurd (by simp [String.length, hsd]) hlen
    · simp [PyVal.unpack2, hsd]
  simp [qap_anatomical_spatial_wire, St.cfgGet, St.rpGet, hv1, hv2, hv3, hv4, hv5, hv6,
    h7, hup, ebind_ok, ebind_error]

/-- Counterexample to **C10** (a Concrete `starter` always raises a
lookup/unpacking error): with `starter` bound to the Concrete two-character
string `"ab"`, the unconditional `node, out_file = resource_pool['starter']`
(src line 684) unpacks the string character-wise without any error, wires an
edge from node `"a"`, port `"b"`, and the call completes successfully. -/
theorem c10_starter_concrete_counterexample :
    (match qap_anatomical_spatial_workflowM "_"
        { c2St (.str "/wm.nii.gz") with
          rp := (c2Pool (.str "/wm.nii.gz")).set "starter" (.str "ab") } with
     | .ok s =>
       (s.wf.edges.contains ⟨"a", "b", "qap_anatomical_spatial_", "starter"⟩, true)
     | .error _ => (false, false)) = (true, true) := by
  decide

/-- **C10**, amended: every call of `qap_anatomical_spatial_workflow` that
passes its prerequisite checks and reaches node wiring requires the pool key
`starter` even though it is not listed among the builder's expected
resources — when `starter` is absent the call raises `KeyError`, and when it
is Concrete with Python length other than 2 it raises an unpacking
`ValueError` instead of stalling; a length-2 Concrete string, however, is
silently unpacked character-wise and wired as an edge (the
counterexample). -/
theorem c10_starter_required_amended :
    ∀ nm st,
      st.rp.hasKey "anat_fav_artifacts_background" = true →
      st.rp.hasKey "anat_gm_mask" = true →
      st.rp.hasKey "anat_wm_mask" = true →
      st.rp.hasKey "anat_csf_mask" = true →
      st.cfg.hasKey "anatomical_template" = true →
      st.cfg.hasKey "subject_id" = true →
      st.cfg.hasKey "session_id" = true →
      st.cfg.hasKey "scan_id" = true →
      st.cfg.hasKey "run_name" = true →
      st.cfg.hasKey "output_directory" = true →
      (st.rp.hasKey "starter" = false →
        qap_anatomical_spatial_workflowM nm st = .error (.keyError "starter")) ∧
      (∀ s, st.rp.lookup "starter" = some (.str s) → s.length ≠ 2 →
        qap_anatomical_spatial_workflowM nm st = .error (.valueError "unpack")) := by
  intro nm st h1 h2 h3 h4 h5 c1 c2 c3 c4 c6
  rw [spatialM_eq_wire h1 h2 h3 h4 h5]
  constructor
  · intro h7
    by_cases hez : st.cfg.hasKey "exclude_zeros"
    · rw [if_pos hez]
      exact spatial_wire_starter_absent c1 c2 c3 c4 hez c6 h7
    · rw [if_neg hez]
      refine spatial_wire_starter_absent ?_ ?_ ?_ ?_ ?_ ?_ h7
      all_goals simp [St.cfgSet_cfg, St.logCall_cfg, Pool.hasKey_set, c1, c2, c3, c4, c6]
  · intro s h7 hlen
    by_cases hez : st.cfg.hasKey "exclude_zeros"
    · rw [if_pos hez]
      exact spatial_wire_starter_badstr c1 c2 c3 c4 hez c6 h7 hlen
    · rw [if_neg hez]
      refine spatial_wire_starter_badstr ?_ ?_ ?_ ?_ ?_ ?_ h7 hlen
      all_goals simp [St.cfgSet_cfg, St.logCall_cfg, Pool.hasKey_set, c1, c2, c3, c4, c6]

/-- Witness for the amended C10: on the concrete full pool with `starter`
removed, the builder raises `KeyError('starter')`. -/
theorem c10_starter_required_amended_witness :
    qap_anatomical_spatial_workflowM "_"
      { c2St (.str "/wm.nii.gz") with rp := (c2Pool (.str "/wm.nii.gz")).tail } =
      .error (.keyError "starter") :=
  (c10_starter_required_amended "_"
    { c2St (.str "/wm.nii.gz") with rp := (c2Pool (.str "/wm.nii.gz")).tail }
    (by decide) (by decide) (by decide) (by decide) (by decide) (by decide) (by decide)
    (by decide) (by decide) (by decide)).1 (by decide)

/-- A parameter batch containing no write to any unit's `direction` input. -/
def noDirParam (l : List (String × String × PyVal)) : Prop :=
  ∀ e ∈ l, e.2.1 ≠ "direction"

/-- `s2`'s parameter list extends `s1`'s by writes none of which touch a
`direction` input. -/
def DirExt (s1 s2 : St) : Prop :=
  ∃ l, s2.params = s1.params ++ l ∧ noDirParam l

theorem DirExt.refl (s : St) : DirExt s s := ⟨[], by simp, fun e he => absurd he (by simp)⟩

theorem DirExt.of_params_eq {s1 s2 : St} (h : s2.params = s1.params) : DirExt s1 s2 :=
  ⟨[], by simp [h], fun e he => absurd he (by simp)⟩

theorem DirExt.chain {s1 s2 s3 : St} (h12 : DirExt s1 s2) (h23 : DirExt s2 s3) :
    DirExt s1 s3 := by
  obtain ⟨l1, e1, n1⟩ := h12
  obtain ⟨l2, e2, n2⟩ := h23
  refine ⟨l1 ++ l2, by rw [e2, e1, List.append_assoc], ?_⟩
  intro e he
  rcases List.mem_append.mp he with he | he
  · exact n1 e he
  · exact n2 e he

theorem DirExt.setParam {s : St} (u i : String) (v : PyVal) (h : i ≠ "direction") :
    DirExt s (s.setParam u i v) := by
  refine ⟨[(u, i, v)], rfl, ?_⟩
  intro e he
  simp at he
  rw [he]
  exact h

theorem DirExt.wireIsinstance {s s' : St} {k u i : String}
    (hw : wireIsinstance s k u i = .ok s') (h : i ≠ "direction") : DirExt s s' := by
  obtain ⟨_, _, _, _, hp⟩ := wireIsinstance_ok_effects hw
  rcases hp with hp | ⟨v, hp⟩
  · exact DirExt.of_params_eq hp
  · refine ⟨[(u, i, v)], hp, ?_⟩
    intro e he
    simp at he
    rw [he]
    exact h

theorem DirExt.wireLen2 {s s' : St} {k u i : String}
    (hw : wireLen2 s k u i = .ok s') (h : i ≠ "direction") : DirExt s s' := by
  obtain ⟨_, _, _, _, hp⟩ := wireLen2_ok_effects hw
  rcases hp with hp | ⟨v, hp⟩
  · exact DirExt.of_params_eq hp
  · refine ⟨[(u, i, v)], hp, ?_⟩
    intro e he
    simp at he
    rw [he]
    exact h

theorem DirExt.siteBind (s : St) (u : String) : DirExt s (siteNameCfgBind s u) := by
  unfold siteNameCfgBind
  cases s.cfg.lookup "site_name" with
  | none => exact DirExt.refl s
  | some v => exact DirExt.setParam u "site_name" v (by decide)

theorem paramLookup_direction_of_dirExt {s1 s2 : St} (h : DirExt s1 s2) (u : String) :
    s2.paramLookup u "direction" = s1.paramLookup u "direction" := by
  obtain ⟨l, hl, hn⟩ := h
  unfold St.paramLookup
  rw [hl, List.reverse_append, List.find?_append]
  have hnone : List.find? (fun e => e.1 == u && e.2.1 == "direction") l.reverse = none := by
    rw [List.find?_eq_none]
    intro x hx
    have hne := hn x (List.mem_reverse.mp hx)
    simp [hne]
  rw [hnone]
  simp

@[simp] theorem St.paramLookup_rpSet (st : St) (k : String) (v : PyVal) (u i : String) :
    (st.rpSet k v).paramLookup u i = st.paramLookup u i := rfl

@[simp] theorem St.paramLookup_cfgSet (st : St) (k : String) (v : PyVal) (u i : String) :
    (st.cfgSet k v).paramLookup u i = st.paramLookup u i := rfl

@[simp] theorem St.paramLookup_newNode (st : St) (n u i : String) :
    (st.newNode n).paramLookup u i = st.paramLookup u i := rfl

@[simp] theorem St.paramLookup_connect (st : St) (s sp d dp u i : String) :
    (st.connect s sp d dp).paramLookup u i = st.paramLookup u i := rfl

@[simp] theorem St.paramLookup_logCall (st : St) (s u i : String) :
    (st.logCall s).paramLookup u i = st.paramLookup u i := rfl

theorem St.paramLookup_setParam (st : St) (u' i' u i : String) (v : PyVal) :
    (st.setParam u' i' v).paramLookup u i =
      if u' == u && i' == i then some v else st.paramLookup u i := by
  unfold St.paramLookup St.setParam
  simp only [List.reverse_append, List.reverse_cons, List.reverse_nil, List.nil_append,
    List.cons_append, List.find?]
  by_cases hc : (u' == u && i' == i) = true
  · simp [hc]
  · simp only [Bool.not_eq_true] at hc
    simp [hc]

@[simp] theorem siteNameCfgBind_paramLookup_direction (s : St) (u' u : String) :
    (siteNameCfgBind s u').paramLookup u "direction" = s.paramLookup u "direction" := by
  unfold siteNameCfgBind
  cases s.cfg.lookup "site_name" with
  | none => rfl
  | some v => simp [St.paramLookup_setParam]

theorem qap_functional_mosaic_direction {nm : String} {st st' : St}
    (h : qap_functional_mosaic nm st = .ok st') :
    ∀ u, st'.paramLookup u "direction" = st.paramLookup u "direction" := by
  unfold qap_functional_mosaic at h
  obtain ⟨v, hv, h⟩ := bindOkE h
  obtain ⟨ses, hses, h⟩ := bindOkE h
  obtain ⟨scn, hscn, h⟩ := bindOkE h
  obtain ⟨st2, h2, h⟩ := bindOkE h
  have hst := okOk h
  subst hst
  intro u
  have e2 := paramLookup_direction_of_dirExt (DirExt.wireLen2 h2 (by decide)) u
  simp only [St.paramLookup_rpSet]
  rw [e2]
  simp [St.paramLookup_setParam]

theorem qap_functional_grayplot_direction {nm : String} {st st' : St}
    (h : qap_functional_grayplot nm st = .ok st') :
    ∀ u, st'.paramLookup u "direction" = st.paramLookup u "direction" := by
  unfold qap_functional_grayplot at h
  obtain ⟨x1, hx1, h⟩ := bindOkE h
  obtain ⟨x2, hx2, h⟩ := bindOkE h
  obtain ⟨od, hod, h⟩ := bindOkE h
  obtain ⟨rn, hrn, h⟩ := bindOkE h
  obtain ⟨sn, hsn, h⟩ := bindOkE h
  obtain ⟨sub, hsub, h⟩ := bindOkE h
  obtain ⟨ses, hses, h⟩ := bindOkE h
  obtain ⟨scn, hscn, h⟩ := bindOkE h
  obtain ⟨v, hv, h⟩ := bindOkE h
  obtain ⟨st2, h2, h⟩ := bindOkE h
  obtain ⟨st3, h3, h⟩ := bindOkE h
  have hst := okOk h
  subst hst
  intro u
  have e2 := paramLookup_direction_of_dirExt (DirExt.wireLen2 h2 (by decide)) u
  have e3 := paramLookup_direction_of_dirExt (DirExt.wireLen2 h3 (by decide)) u
  rw [e3, e2]
  simp [St.paramLookup_setParam]

theorem qap_functional_wire2_direction {nm : String} {st st' : St}
    (h : qap_functional_wire2 nm st = .ok st') :
    ∀ u, st'.paramLookup u "direction" = st.paramLookup u "direction" := by
  unfold qap_functional_wire2 at h
  obtain ⟨v1, hv1, h⟩ := bindOkE h
  obtain ⟨v2, hv2, h⟩ := bindOkE h
  obtain ⟨v3, hv3, h⟩ := bindOkE h
  obtain ⟨v4, hv4, h⟩ := bindOkE h
  obtain ⟨stA, hA, h⟩ := bindOkE h
  obtain ⟨stB, hB, h⟩ := bindOkE h
  obtain ⟨stC, hC, h⟩ := bindOkE h
  obtain ⟨w1, hw1, h⟩ := bindOkE h
  obtain ⟨w2, hw2, h⟩ := bindOkE h
  obtain ⟨w3, hw3, h⟩ := bindOkE h
  obtain ⟨w4, hw4, h⟩ := bindOkE h
  obtain ⟨w5, hw5, h⟩ := bindOkE h
  obtain ⟨vfr, hvfr, h⟩ := bindOkE h
  obtain ⟨nfr, hnfr, h⟩ := bindOkE h
  obtain ⟨stD, hD, h⟩ := bindOkE h
  obtain ⟨vfm, hvfm, h⟩ := bindOkE h
  obtain ⟨nfm, hnfm, h⟩ := bindOkE h
  obtain ⟨stE, hE, h⟩ := bindOkE h
  obtain ⟨stF, hF, h⟩ := bindOkE h
  obtain ⟨stG, hG, h⟩ := bindOkE h
  obtain ⟨stH, hH, h⟩ := bindOkE h
  obtain ⟨od, hod, h⟩ := bindOkE h
  obtain ⟨rn, hrn, h⟩ := bindOkE h
  obtain ⟨sn, hsn, h⟩ := bindOkE h
  obtain ⟨sub, hsub, h⟩ := bindOkE h
  obtain ⟨ses, hses, h⟩ := bindOkE h
  obtain ⟨scn, hscn, h⟩ := bindOkE h
  obtain ⟨wr, hwr, h⟩ := bindOkE h
  intro u
  have efin : st'.paramLookup u "direction" = stH.paramLookup u "direction" := by
    by_cases hw : wr.pyTruthy
    · simp only [hw, if_true] at h
      rw [qap_functional_grayplot_direction h u]
      simp [St.paramLookup_setParam]
    · simp only [hw, Bool.false_eq_true, if_false] at h
      have := okOk h
      subst this
      simp [St.paramLookup_setParam]
  have eH := paramLookup_direction_of_dirExt (DirExt.wireIsinstance hH (by decide)) u
  have eG := paramLookup_direction_of_dirExt (DirExt.wireLen2 hG (by decide)) u
  have eF := paramLookup_direction_of_dirExt (DirExt.wireLen2 hF (by decide)) u
  have eE : stE.paramLookup u "direction" = stD.paramLookup u "direction" := by
    by_cases hn : nfm = 2
    · rw [if_pos hn] at hE
      obtain ⟨np, hnp, hE⟩ := bindOkE hE
      have := okOk hE
      subst this
      simp
    · rw [if_neg hn] at hE
      obtain ⟨uu, hu, hE⟩ := bindOkE hE
      have := okOk hE
      subst this
      simp [St.paramLookup_setParam]
  have eD : stD.paramLookup u "direction" = stC.paramLookup u "direction" := by
    by_cases hn : nfr = 2
    · rw [if_pos hn] at hD
      obtain ⟨np, hnp, hD⟩ := bindOkE hD
      have := okOk hD
      subst this
      simp [St.paramLookup_setParam]
    · rw [if_neg hn] at hD
      obtain ⟨uu, hu, hD⟩ := bindOkE hD
      have := okOk hD
      subst this
      simp [St.paramLookup_setParam]
  have eC : stC.paramLookup u "direction" = stB.paramLookup u "direction" := by
    by_cases hc : (stB.cfgGetD "write_report" (.bool false)).pyTruthy
    · simp only [hc, if_true] at hC
      exact qap_functional_mosaic_direction hC u
    · simp only [hc, Bool.false_eq_true, if_false] at hC
      have := okOk hC
      subst this
      rfl
  have eB := paramLookup_direction_of_dirExt (DirExt.wireLen2 hB (by decide)) u
  have eA := paramLookup_direction_of_dirExt (DirExt.wireLen2 hA (by decide)) u
  rw [efin, eH, eG, eF, eE, eD, eC, eB, eA]
  simp [St.paramLookup_setParam]

/-- When every key tested by `qap_functional_workflow`'s four prerequisite
dispatches is already in the pool, the builder equals its wiring phase on the
logged state. -/
theorem functionalM_eq_wire {nm : String} {st : St}
    (h1 : st.rp.hasKey "func_inverted_brain_mask" = true)
    (h2 : st.rp.hasKey "func_motion_correct" = true)
    (h3 : st.rp.hasKey "func_coordinate_transformation" = true ∨
      st.rp.hasKey "mcflirt_rel_rms" = true)
    (h4 : st.rp.hasKey "func_mean" = true)
    (h5 : st.rp.hasKey "func_SFS" = true) :
    qap_functional_workflowM nm st =
      qap_functional_wire nm (st.logCall "qap_functional_workflow") := by
  rcases h3 with h3 | h3 <;>
    simp [qap_functional_workflowM, qap_functional_workflow, stallCheckWhen,
      h1, h2, h3, h4, h5]

/-- **C9**: for every call of `qap_functional_workflow` (with its actual
prerequisite builders) that reaches the functional-spatial unit — its
prerequisite dispatches being satisfied — and returns successfully: when the
config lacks `ghost_direction`, the unit's `direction` parameter is silently
set to `"y"` (and the default is written into the config); when
`ghost_direction` is present, its value is used unchanged. -/
theorem c9_ghost_direction_default :
    ∀ nm st st',
      st.rp.hasKey "func_inverted_brain_mask" = true →
      st.rp.hasKey "func_motion_correct" = true →
      (st.rp.hasKey "func_coordinate_transformation" = true ∨
        st.rp.hasKey "mcflirt_rel_rms" = true) →
      st.rp.hasKey "func_mean" = true →
      st.rp.hasKey "func_SFS" = true →
      qap_functional_workflowM nm st = .ok st' →
      (st.cfg.hasKey "ghost_direction" = false →
        st'.paramLookup ("qap_functional_spatial" ++ nm) "direction" = some (.str "y") ∧
        st'.cfg.lookup "ghost_direction" = some (.str "y")) ∧
      (∀ v, st.cfg.lookup "ghost_direction" = some v →
        st'.paramLookup ("qap_functional_spatial" ++ nm) "direction" = some v) := by
  intro nm st st' h1 h2 h3 h4 h5 h
  rw [functionalM_eq_wire h1 h2 h3 h4 h5] at h
  unfold qap_functional_wire at h
  obtain ⟨stA, hA, h⟩ := bindOkE h
  obtain ⟨eArp, eAcfg, eAcalls, eAcr⟩ := fdInFileBind_ok_effects hA
  simp only [St.newNode_cfg, St.logCall_cfg] at eAcfg
  constructor
  · intro hg
    simp only [St.newNode_cfg, eAcfg, hg, Bool.false_eq_true, if_false] at h
    obtain ⟨v, hv, h⟩ := bindOkE h
    have hv' : v = .str "y" := by
      have h2' := cfgGetOk hv
      rw [St.cfgSet_cfg] at h2'
      rw [Pool.lookup_set_self] at h2'
      exact (Option.some_inj.mp h2').symm
    subst hv'
    have hdir := qap_functional_wire2_direction h ("qap_functional_spatial" ++ nm)
    constructor
    · rw [hdir, St.paramLookup_setParam]
      simp
    · have hcfg := (qap_functional_wire2_effects h).2.1
      rw [hcfg]
      simp only [St.setParam_cfg, St.cfgSet_cfg, St.newNode_cfg]
      rw [Pool.lookup_set_self]
  · intro v0 hg
    have hgk : st.cfg.hasKey "ghost_direction" = true := by simp [Pool.hasKey, hg]
    simp only [St.newNode_cfg, eAcfg, hgk, if_true] at h
    obtain ⟨v, hv, h⟩ := bindOkE h
    have hv' : v = v0 := by
      have h2' := cfgGetOk hv
      rw [St.newNode_cfg, eAcfg, hg] at h2'
      exact (Option.some_inj.mp h2').symm
    subst hv'
    have hdir := qap_functional_wire2_direction h ("qap_functional_spatial" ++ nm)
    rw [hdir, St.paramLookup_setParam]
    simp

/-- A complete functional pool and config with no `ghost_direction` key. -/
def c9St : St :=
  { wf := ⟨[]⟩,
    rp := [("func_inverted_brain_mask", .tup ["inv", "out_file"]),
      ("func_motion_correct", .tup ["mc", "out_file"]),
      ("func_coordinate_transformation", .tup ["mc", "oned_matrix_save"]),
      ("func_mean", .tup ["mn", "out_file"]),
      ("func_SFS", .tup ["sfs", "sfs_file"]),
      ("func_reorient", .str "/fr.nii.gz"),
      ("func_brain_mask", .tup ["bm", "out_file"])],
    cfg := [("subject_id", .str "sub1"), ("session_id", .str "ses1"),
      ("scan_id", .str "scn1"), ("run_name", .str "run1"),
      ("output_directory", .str "/out"), ("site_name", .str "site1"),
      ("write_report", .bool false)],
    created := [], params := [], calls := [] }

/-- The state `qap_functional_workflow` produces from `c9St`. -/
def c9Res : St :=
  match qap_functional_workflowM "_" c9St with
  | .ok s => s
  | .error _ => c9St

/-- Witness for C9: on the concrete run from `c9St`, whose config lacks
`ghost_direction`, the functional-spatial unit's direction parameter is
`"y"` and the default landed in the config. -/
theorem c9_ghost_direction_default_witness :
    c9Res.paramLookup "qap_functional_spatial_" "direction" = some (.str "y") ∧
    c9Res.cfg.lookup "ghost_direction" = some (.str "y") :=
  (c9_ghost_direction_default "_" c9St c9Res (by decide) (by decide)
    (Or.inl (by decide)) (by decide) (by decide) (by rfl)).1 (by decide)

/-- Sink names are in bijection with pool keys: prefixing with `datasink_`
is injective. -/
theorem dsName_injective : Function.Injective (fun k => "datasink_" ++ k) := by
  intro a b h
  simp only at h
  have hd : ("datasink_" ++ a).data = ("datasink_" ++ b).data := by rw [h]
  simp only [String.data_append] at hd
  exact String.ext (List.append_cancel_left hd)

/-- A sink edge exists for a key exactly when the key is bound to a
Reference, and it is wired from that reference's node and port into the sink
named after the key. -/
theorem sinkEdge_some {rp : Pool} {k : String} {e : Edge}
    (h : sinkEdge rp k = some e) :
    ∃ n p, rp.lookup k = some (.tup [n, p]) ∧ e = ⟨n, p, "datasink_" ++ k, k⟩ := by
  unfold sinkEdge at h
  split at h
  next n p hl => exact ⟨n, p, hl, (Option.some_inj.mp h).symm⟩
  next => cases h

/-- Among the sweep's sink edges, those entering the sink of a Reference key
`k` are the single wired edge, repeated once per occurrence of `k` in the
swept key list. -/
theorem filter_dst_filterMap_sinkEdge (rp : Pool) (ks : List String)
    (k n p : String) (hlk : rp.lookup k = some (.tup [n, p])) :
    (ks.filterMap (sinkEdge rp)).filter (fun e => e.dst == "datasink_" ++ k) =
      List.replicate (ks.count k) ⟨n, p, "datasink_" ++ k, k⟩ := by
  induction ks with
  | nil => simp
  | cons a ks ih =>
    by_cases ha : a = k
    · subst ha
      simp [List.filterMap_cons, sinkEdge, hlk, List.count_cons, ih,
        List.replicate_succ]
    · cases hse : sinkEdge rp a with
      | none =>
        simp [List.filterMap_cons, hse, List.count_cons, ha, ih, Ne.symm ha]
      | some e =>
        obtain ⟨n', p', _, rfl⟩ := sinkEdge_some hse
        have hne : ("datasink_" ++ a) ≠ ("datasink_" ++ k) :=
          fun hc => ha (dsName_injective hc)
        simp [List.filterMap_cons, hse, List.filter_cons, hne,
          List.count_cons, ha, ih, Ne.symm ha]

/-- **C4**: after the materialization sweep of `run_nipype_workflow` over the
fully assembled pool (keys unique, and no pre-existing graph edge, created
node or reference source already carrying a `datasink_` name), every resource
key bound to a Reference `(node, port)` pair has exactly one sink node
created, named `datasink_<key>`, attached to the graph, and its incoming
wiring is exactly the one edge from that reference's node and output port
into the port named after the key; every key bound to a Concrete value has
zero sink nodes in the assembled graph — its dangling DataSink object is
never attached. -/
theorem c4_datasink_materialization :
    ∀ st st',
      st.rp.keys.Nodup →
      (∀ e ∈ st.wf.edges,
        (∀ k0, e.src ≠ "datasink_" ++ k0) ∧ (∀ k0, e.dst ≠ "datasink_" ++ k0)) →
      (∀ c ∈ st.created, ∀ k0, c ≠ "datasink_" ++ k0) →
      (∀ k n p, st.rp.lookup k = some (.tup [n, p]) →
        ∀ k0, n ≠ "datasink_" ++ k0) →
      datasinkSweep st st.rp.keys = .ok st' →
      ∀ k,
        (∀ n p, st.rp.lookup k = some (.tup [n, p]) →
          st'.created.count ("datasink_" ++ k) = 1 ∧
          st'.wf.edges.filter (fun e => e.dst == "datasink_" ++ k) =
            [⟨n, p, "datasink_" ++ k, k⟩] ∧
          st'.wf.hasNode ("datasink_" ++ k) = true) ∧
        (∀ v, st.rp.lookup k = some v → v.isTup = false →
          st'.wf.hasNode ("datasink_" ++ k) = false) := by
  intro st st' hnd hpre hcr hsrc h
  obtain ⟨erp, ecfg, ecalls, ecr, eedges⟩ := datasinkSweep_chars h
  intro k
  constructor
  · intro n p hlk
    have hmem : k ∈ st.rp.keys := Pool.mem_keys_of_lookup hlk
    refine ⟨?_, ?_, ?_⟩
    · rw [ecr, List.count_append]
      have h0 : st.created.count ("datasink_" ++ k) = 0 := by
        rw [List.count_eq_zero]
        intro hmem'
        exact hcr _ hmem' k rfl
      have h1 : (st.rp.keys.map (fun k => "datasink_" ++ k)).count
          ("datasink_" ++ k) = 1 := by
        rw [List.count_map_of_injective _ _ dsName_injective]
        exact List.count_eq_one_of_mem hnd hmem
      rw [h0, h1]
    · rw [eedges, List.filter_append]
      have h0 : st.wf.edges.filter (fun e => e.dst == "datasink_" ++ k) = [] := by
        rw [List.filter_eq_nil_iff]
        intro e he
        simp only [beq_iff_eq]
        exact (hpre e he).2 k
      rw [h0, List.nil_append,
        filter_dst_filterMap_sinkEdge st.rp _ k n p hlk,
        List.count_eq_one_of_mem hnd hmem]
      rfl
    · have hse : sinkEdge st.rp k = some ⟨n, p, "datasink_" ++ k, k⟩ := by
        simp [sinkEdge, hlk]
      have hmem' : (⟨n, p, "datasink_" ++ k, k⟩ : Edge) ∈ st'.wf.edges := by
        rw [eedges]
        exact List.mem_append_right _ (List.mem_filterMap.mpr ⟨k, hmem, hse⟩)
      simp only [Wf.hasNode, List.any_eq_true]
      exact ⟨_, hmem', by simp⟩
  · intro v hlk hvt
    rw [Wf.hasNode, eedges, List.any_append]
    have h1 : st.wf.edges.any
        (fun e => e.src == "datasink_" ++ k || e.dst == "datasink_" ++ k) = false := by
      rw [List.any_eq_false]
      intro e he
      obtain ⟨hs, hd⟩ := hpre e he
      simp [hs k, hd k]
    have h2 : ((st.rp.keys.filterMap (sinkEdge st.rp)).any
        (fun e => e.src == "datasink_" ++ k || e.dst == "datasink_" ++ k)) = false := by
      rw [List.any_eq_false]
      intro e he
      obtain ⟨k', hk'mem, hse⟩ := List.mem_filterMap.mp he
      obtain ⟨n', p', hlk', rfl⟩ := sinkEdge_some hse
      simp only [Bool.or_eq_true, beq_iff_eq, not_or]
      constructor
      · exact hsrc k' n' p' hlk' k
      · intro hc
        have hk : k' = k := dsName_injective hc
        subst hk
        rw [hlk] at hlk'
        have hv : v = .tup [n', p'] := Option.some_inj.mp hlk'
        rw [hv] at hvt
        simp [PyVal.isTup] at hvt
    rw [h1, h2]
    rfl

/-- A two-entry pool: one Reference (short node name `qm`) and one Concrete
path, with a clean initial state, for instantiating the sweep claim. -/
def c4St : St :=
  { wf := ⟨[]⟩,
    rp := [("anat_csf_mask", .tup ["qm", "cm"]),
      ("anatomical_scan", .str "/raw.nii.gz")],
    cfg := [], created := [], params := [], calls := [] }

/-- The state the materialization sweep produces from `c4St`. -/
def c4Res : St :=
  match datasinkSweep c4St c4St.rp.keys with
  | .ok s => s
  | .error _ => c4St

/-- Witness for C4: on the concrete sweep from `c4St`, the Reference key gets
exactly one sink node, wired exactly once from its node and port, and the
Concrete key's sink never joins the graph. -/
theorem c4_datasink_materialization_witness :
    c4Res.created.count ("datasink_" ++ "anat_csf_mask") = 1 ∧
    c4Res.wf.edges.filter (fun e => e.dst == "datasink_" ++ "anat_csf_mask") =
      [⟨"qm", "cm", "datasink_" ++ "anat_csf_mask", "anat_csf_mask"⟩] ∧
    c4Res.wf.hasNode ("datasink_" ++ "anat_csf_mask") = true ∧
    c4Res.wf.hasNode ("datasink_" ++ "anatomical_scan") = false := by
  have hsrc : ∀ k n p, c4St.rp.lookup k = some (.tup [n, p]) →
      ∀ k0, n ≠ "datasink_" ++ k0 := by
    intro k n p hl k0 hc
    simp only [c4St, Pool.lookup] at hl
    split at hl
    · simp only [Option.some.injEq, PyVal.tup.injEq, List.cons.injEq,
        and_true] at hl
      have hn : n = "qm" := hl.1.symm
      subst hn
      have hlen := congrArg String.length hc
      simp only [String.length_append] at hlen
      have h2 : ("qm" : String).length = 2 := rfl
      have h9 : ("datasink_" : String).length = 9 := rfl
      omega
    · split at hl
      · simp at hl
      · cases hl
  have main := c4_datasink_materialization c4St c4Res (by decide)
    (by simp [c4St]) (by simp [c4St]) hsrc (by rfl)
  obtain ⟨ha1, ha2, ha3⟩ := (main "anat_csf_mask").1 "qm" "cm" (by decide)
  have hb := (main "anatomical_scan").2 (.str "/raw.nii.gz") (by decide) (by decide)
  exact ⟨ha1, ha2, ha3, hb⟩
